import Mathlib

/-!
# Swap chain and constant buffer lifecycle of the Vulkan back end

A shallow embedding of `Runtime/RHI/Vulkan/Vulkan_SwapChain.cpp` and
`Runtime/RHI/Vulkan/Vulkan_ConstantBuffer.cpp`.

* Handles (`void*`, `VkSurfaceKHR`, ...) are natural numbers, `0` being `nullptr`.
* `uint32_t` members are natural numbers; arithmetic on them wraps with an explicit
  `% 4294967296`.
* A `std::array<void*, state_max_render_target_count>` is a list whose length is the
  extent of the array; an access outside it has no defined behaviour.
* Every call into the driver (or into a helper of `vulkan_utility` / `vulkan_common`,
  whose bodies are not part of these two files) is recorded as a `DriverCall`; what the
  driver answers is an argument of the function that makes the call.
* A function whose execution has no defined behaviour at some input (remainder by zero,
  an array access outside its extent) returns `none` there.
* A method that reads the device through `m_rhi_device` without a null check takes the
  device the pointer refers to as an argument.
* The buffers and memory allocations that are live on the device are passed through the
  methods of the constant buffer, next to the object itself.
-/

namespace Spartan

/-- A pointer or Vulkan handle; `0` is `nullptr`. -/
abbrev Handle := Nat

/-- One call that leaves the two translation units, in the order it is issued. -/
inductive DriverCall where
  | vkCreateWin32SurfaceKHR (hwnd : Handle)
  | vkGetPhysicalDeviceSurfaceSupportKHR (queue_graphics_index : Nat) (surface : Handle)
  | surface_capabilities (surface : Handle)
  | detect_format_and_color_space (surface : Handle)
  | set_present_mode (surface : Handle) (flags : Nat)
  | vkCreateSwapchainKHR (surface : Handle) (minImageCount width height : Nat)
      (concurrent : Bool)
  | vkGetSwapchainImagesKHR (swap_chain : Handle)
  | set_image_name (image : Handle)
  | image_view_create (image : Handle)
  | semaphore_create (slot : Nat)
  | semaphore_destroy (semaphore : Handle)
  | image_view_destroy (views : List Handle)
  | vkDestroySwapchainKHR (swap_chain : Handle)
  | vkDestroySurfaceKHR (surface : Handle)
  | command_pool_create
  | command_pool_destroy (pool : Handle)
  | make_RHI_CommandList (index : Nat)
  | vkResetCommandPool (pool : Handle)
  /-- The acquisition; `index` is the slot of `m_resource_view_acquiredSemaphore` whose
  entry `semaphore` is handed to the driver. -/
  | vkAcquireNextImageKHR (swap_chain : Handle) (index : Nat) (semaphore : Handle)
  | Queue_Present (swap_chain : Handle) (image_index : Nat)
  | vkQueueWaitIdle (queue : Handle)
  | buffer_destroy (buffer : Handle)
  | memory_free (memory : Handle)
  | buffer_create (size : Nat)
  /-- The helper `vulkan_utility::image::set_layout` recording a layout transition of
  `image` to `layout` into the command buffer `cmd_buffer`. -/
  | image_set_layout (cmd_buffer image : Handle) (layout : Nat)
  deriving DecidableEq, Repr

/-- What the swap chain reads of `RHI_Device` and of its `RHI_Context`. The class is
declared outside these files, so `ValidateResolution` is a field. -/
structure RHI_Device where
  /-- The logical device, `GetContextRhi()->device`. -/
  device : Handle
  queue_graphics : Handle
  queue_graphics_index : Nat
  queue_compute_index : Nat
  ValidateResolution : Nat → Nat → Bool

/-- The members of `RHI_SwapChain` that the translation unit reads or writes. -/
structure RHI_SwapChain where
  m_initialized : Bool
  m_present : Bool
  m_image_acquired : Bool
  m_image_index : Nat
  m_buffer_count : Nat
  m_width : Nat
  m_height : Nat
  m_format : Nat
  m_flags : Nat
  m_window_handle : Handle
  m_rhi_device : Option RHI_Device
  m_surface : Handle
  m_swap_chain_view : Handle
  m_resource : List Handle
  m_resource_view : List Handle
  m_resource_view_acquiredSemaphore : List Handle
  m_cmd_pool : Handle
  m_cmd_lists : List Nat
  m_layout : Nat

/-- What a method did: its return value, the object afterwards, the calls it issued. -/
structure Outcome (α : Type) where
  ret : α
  state : RHI_SwapChain
  calls : List DriverCall

/-- The driver's answer to one `vkAcquireNextImageKHR`. -/
structure AcquireResponse where
  /-- The value of `vulkan_utility::error::check` on the returned `VkResult`. -/
  check : Bool
  /-- The image index the driver stored through `&m_image_index`, if it stored one. -/
  pImageIndex : Option Nat
  deriving DecidableEq, Repr

/-- The local `index` of `RHI_SwapChain::AcquireNextImage` (line 349):
`!m_image_acquired ? 0 : (m_image_index + 1) % m_buffer_count`. The remainder is taken
only in the second branch; with `m_buffer_count = 0` it is undefined. -/
def RHI_SwapChain.AcquireNextImage_index (s : RHI_SwapChain) : Option Nat :=
  if !s.m_image_acquired then some 0
  else if s.m_buffer_count = 0 then none
  else some (((s.m_image_index + 1) % 4294967296) % s.m_buffer_count)

/-- The pool reset of `RHI_SwapChain::AcquireNextImage` (lines 341-345), issued when
`m_image_index + 1 > m_buffer_count`. -/
def RHI_SwapChain.AcquireNextImage_reset (s : RHI_SwapChain) : List DriverCall :=
  if (s.m_image_index + 1) % 4294967296 > s.m_buffer_count then
    [DriverCall.vkResetCommandPool s.m_cmd_pool]
  else []

/-- The method `RHI_SwapChain::AcquireNextImage`; `r` is the driver's answer to the
acquisition. -/
def RHI_SwapChain.AcquireNextImage (s : RHI_SwapChain) (r : AcquireResponse) :
    Option (Outcome Bool) :=
  if !s.m_present then some ⟨true, s, []⟩
  else
    match s.AcquireNextImage_index with
    | none => none
    | some index =>
      match s.m_resource_view_acquiredSemaphore[index]? with
      | none => none
      | some semaphore =>
        some ⟨r.check,
          { s with m_image_acquired := r.check,
                   m_image_index := r.pImageIndex.getD s.m_image_index },
          s.AcquireNextImage_reset ++
            [DriverCall.vkAcquireNextImageKHR s.m_swap_chain_view index semaphore]⟩

/-- The method `RHI_SwapChain::Present`. `queue_present` is what
`RHI_Device::Queue_Present` returns if it is called; its body is not among the sources and
it is taken to only read the image index it is given a pointer to. -/
def RHI_SwapChain.Present (s : RHI_SwapChain) (queue_present : Bool) : Outcome Bool :=
  if !s.m_present then ⟨true, s, []⟩
  else if !s.m_image_acquired then ⟨false, s, []⟩
  else ⟨queue_present, s, [DriverCall.Queue_Present s.m_swap_chain_view s.m_image_index]⟩

/-- A call of the acquire/present cycle together with the driver's answer to it. -/
inductive FrameCall where
  | AcquireNextImage (r : AcquireResponse)
  | Present (queue_present : Bool)
  deriving DecidableEq, Repr

/-- One call of the cycle on the object. -/
def RHI_SwapChain.frame_call (s : RHI_SwapChain) : FrameCall → Option (Outcome Bool)
  | FrameCall.AcquireNextImage r => s.AcquireNextImage r
  | FrameCall.Present q => some (s.Present q)

/-- The calls of the cycle made one after the other on the same object: the return
values in order, the object at the end, and all the driver calls in order. -/
def RHI_SwapChain.frame_calls (s : RHI_SwapChain) :
    List FrameCall → Option (Outcome (List Bool))
  | [] => some ⟨[], s, []⟩
  | c :: cs =>
    match s.frame_call c with
    | none => none
    | some o =>
      match RHI_SwapChain.frame_calls o.state cs with
      | none => none
      | some os => some ⟨o.ret :: os.ret, os.state, o.calls ++ os.calls⟩

/-- The semaphore slots of the acquisitions in a sequence of driver calls, in order. -/
def acquire_slots : List DriverCall → List Nat
  | [] => []
  | DriverCall.vkAcquireNextImageKHR _ index _ :: cs => index :: acquire_slots cs
  | _ :: cs => acquire_slots cs

/-- The number of command pool resets in a sequence of driver calls. -/
def pool_resets : List DriverCall → Nat
  | [] => 0
  | DriverCall.vkResetCommandPool _ :: cs => pool_resets cs + 1
  | _ :: cs => pool_resets cs

/-- The number of queue-present submissions in a sequence of driver calls. -/
def present_submissions : List DriverCall → Nat
  | [] => 0
  | DriverCall.Queue_Present _ _ :: cs => present_submissions cs + 1
  | _ :: cs => present_submissions cs

/-- Modelled from the spec: `Math::Helper::Clamp` of `Math/MathHelper.h`, which is not
among the sources. The spec says the creation "clamps requested width/height into the
device's reported min/max extent". -/
def Clamp (x a b : Nat) : Nat :=
  if x < a then a else if x > b then b else x

/-- Modelled from the spec: what `vulkan_utility::image::view::destroy`, whose body is
not among the sources, leaves in the array it is given. The spec says the existing views
are destroyed; every entry is taken to be `nullptr` afterwards, as `destroy` itself does
for the semaphores. -/
def image_view_destroy_result (views : List Handle) : List Handle :=
  List.replicate views.length 0

/-- The driver's answers to the calls of `_Vulkan_SwapChain::create`. -/
structure CreateDriver where
  /-- `error::check` of `vkCreateWin32SurfaceKHR`, and the surface it made. -/
  surface_check : Bool
  surface : Handle
  /-- `error::check` of `vkGetPhysicalDeviceSurfaceSupportKHR`, and what it reported. -/
  support_check : Bool
  present_support : Bool
  /-- The extents of `vulkan_utility::surface::capabilities`. -/
  minImageExtent_width : Nat
  maxImageExtent_width : Nat
  minImageExtent_height : Nat
  maxImageExtent_height : Nat
  /-- `error::check` of `vkCreateSwapchainKHR`, and the chain it made. -/
  swap_chain_check : Bool
  swap_chain : Handle
  /-- The images `vkGetSwapchainImagesKHR` reports; `image_count` is their number. -/
  swap_chain_images : List Handle
  /-- For the `i`-th image: what `vulkan_utility::image::view::create` returns and the
  view it stores. -/
  image_view_create : Nat → Bool × Handle
  /-- The semaphore `vulkan_utility::semaphore::create` stores for slot `i`. -/
  semaphore_create : Nat → Handle

namespace _Vulkan_SwapChain

/-- The state of the image view loop of `create` (lines 144-153). -/
structure ImageViews where
  /-- Whether the loop is still running (`false`: it has hit `return false`). -/
  ok : Bool
  resource_textures : List Handle
  resource_views : List Handle
  calls : List DriverCall

/-- The first `n` iterations of the image view loop of `create`. -/
def create_image_views (drv : CreateDriver) (resource_textures resource_views : List Handle) :
    Nat → Option ImageViews
  | 0 => some ⟨true, resource_textures, resource_views, []⟩
  | n + 1 =>
    match create_image_views drv resource_textures resource_views n with
    | none => none
    | some st =>
      if !st.ok then some st
      else
        match drv.swap_chain_images[n]? with
        | none => none
        | some image =>
          if n < st.resource_textures.length ∧ n < st.resource_views.length then
            some ⟨(drv.image_view_create n).1,
              st.resource_textures.set n image,
              st.resource_views.set n (drv.image_view_create n).2,
              st.calls ++ [DriverCall.set_image_name image, DriverCall.image_view_create image]⟩
          else none

/-- The first `n` iterations of the semaphore loop of `create` (lines 159-162): the
array and the calls issued. -/
def create_semaphores (drv : CreateDriver) (semaphores : List Handle) :
    Nat → Option (List Handle × List DriverCall)
  | 0 => some (semaphores, [])
  | n + 1 =>
    match create_semaphores drv semaphores n with
    | none => none
    | some st =>
      if n < st.1.length then
        some (st.1.set n (drv.semaphore_create n), st.2 ++ [DriverCall.semaphore_create n])
      else none

/-- What `create` returns and what it leaves in the variables it was given by pointer
or by reference. -/
structure CreateResult where
  ret : Bool
  width : Nat
  height : Nat
  surface_out : Handle
  swap_chain_view_out : Handle
  resource_textures : List Handle
  resource_views : List Handle
  resource_views_acquiredSemaphore : List Handle
  calls : List DriverCall

/-- The function `_Vulkan_SwapChain::create`. Its parameter `format` is not read by the
body (the format comes from `detect_format_and_color_space`). -/
def create (rhi_context : RHI_Device) (width height buffer_count _format flags : Nat)
    (window_handle surface_out swap_chain_view_out : Handle)
    (resource_textures resource_views resource_views_acquiredSemaphore : List Handle)
    (drv : CreateDriver) : Option CreateResult :=
  let calls1 := [DriverCall.vkCreateWin32SurfaceKHR window_handle]
  if !drv.surface_check then
    some ⟨false, width, height, surface_out, swap_chain_view_out, resource_textures,
      resource_views, resource_views_acquiredSemaphore, calls1⟩
  else
    let calls2 := calls1 ++
      [DriverCall.vkGetPhysicalDeviceSurfaceSupportKHR rhi_context.queue_graphics_index
        drv.surface]
    if !drv.support_check || !drv.present_support then
      some ⟨false, width, height, surface_out, swap_chain_view_out, resource_textures,
        resource_views, resource_views_acquiredSemaphore, calls2⟩
    else
      let width1 := Clamp width drv.minImageExtent_width drv.maxImageExtent_width
      let height1 := Clamp height drv.minImageExtent_height drv.maxImageExtent_height
      let calls3 := calls2 ++
        [DriverCall.surface_capabilities drv.surface,
         DriverCall.detect_format_and_color_space drv.surface,
         DriverCall.set_present_mode drv.surface flags,
         DriverCall.vkCreateSwapchainKHR drv.surface buffer_count width1 height1
           (decide (rhi_context.queue_compute_index ≠ rhi_context.queue_graphics_index))]
      if !drv.swap_chain_check then
        some ⟨false, width1, height1, surface_out, swap_chain_view_out, resource_textures,
          resource_views, resource_views_acquiredSemaphore, calls3⟩
      else
        let calls4 := calls3 ++
          [DriverCall.vkGetSwapchainImagesKHR drv.swap_chain,
           DriverCall.vkGetSwapchainImagesKHR drv.swap_chain]
        match create_image_views drv resource_textures resource_views
            drv.swap_chain_images.length with
        | none => none
        | some iv =>
          if !iv.ok then
            some ⟨false, width1, height1, surface_out, swap_chain_view_out,
              iv.resource_textures, iv.resource_views, resource_views_acquiredSemaphore,
              calls4 ++ iv.calls⟩
          else
            match create_semaphores drv resource_views_acquiredSemaphore buffer_count with
            | none => none
            | some sem =>
              some ⟨true, width1, height1, drv.surface, drv.swap_chain,
                iv.resource_textures, iv.resource_views, sem.1,
                calls4 ++ iv.calls ++ sem.2⟩

/-- What `destroy` leaves in the variables it was given by reference, and its calls. -/
structure DestroyResult where
  surface : Handle
  swap_chain_view : Handle
  image_views : List Handle
  semaphores_image_acquired : List Handle
  calls : List DriverCall

/-- The function `_Vulkan_SwapChain::destroy`. -/
def destroy (surface swap_chain_view : Handle)
    (image_views semaphores_image_acquired : List Handle) : DestroyResult :=
  { surface := 0
    swap_chain_view := 0
    image_views := image_view_destroy_result image_views
    semaphores_image_acquired := List.replicate semaphores_image_acquired.length 0
    calls :=
      semaphores_image_acquired.map DriverCall.semaphore_destroy ++
      [DriverCall.image_view_destroy image_views] ++
      (if swap_chain_view ≠ 0 then [DriverCall.vkDestroySwapchainKHR swap_chain_view]
        else []) ++
      (if surface ≠ 0 then [DriverCall.vkDestroySurfaceKHR surface] else []) }

end _Vulkan_SwapChain

/-- The constructor `RHI_SwapChain::RHI_SwapChain`, run on the object `this` as its member
initialisers leave it. `is_window` is what `IsWindow(hwnd)` answers, `cmd_pool` the pool
`vulkan_utility::command_pool::create` stores. -/
def RHI_SwapChain.constructor (this : RHI_SwapChain) (window_handle : Handle)
    (is_window : Bool) (rhi_device : Option RHI_Device)
    (width height format buffer_count flags : Nat) (drv : CreateDriver) (cmd_pool : Handle) :
    Option (Outcome Unit) :=
  match rhi_device with
  | none => some ⟨(), this, []⟩
  | some dev =>
    if dev.device = 0 then some ⟨(), this, []⟩
    else if !dev.ValidateResolution width height then some ⟨(), this, []⟩
    else if window_handle = 0 || !is_window then some ⟨(), this, []⟩
    else
      match _Vulkan_SwapChain.create dev width height buffer_count format flags
          window_handle this.m_surface this.m_swap_chain_view this.m_resource
          this.m_resource_view this.m_resource_view_acquiredSemaphore drv with
      | none => none
      | some c =>
        some ⟨(),
          { this with
              m_format := format
              m_rhi_device := some dev
              m_buffer_count := buffer_count
              m_width := c.width
              m_height := c.height
              m_window_handle := window_handle
              m_flags := flags
              m_initialized := c.ret
              m_surface := c.surface_out
              m_swap_chain_view := c.swap_chain_view_out
              m_resource := c.resource_textures
              m_resource_view := c.resource_views
              m_resource_view_acquiredSemaphore := c.resource_views_acquiredSemaphore
              m_cmd_pool := cmd_pool
              m_cmd_lists := this.m_cmd_lists ++ List.range buffer_count },
          c.calls ++ [DriverCall.command_pool_create] ++
            (List.range buffer_count).map DriverCall.make_RHI_CommandList⟩

/-- The method `RHI_SwapChain::Resize`. `dev` is the device `m_rhi_device` points to
(the method dereferences the pointer first thing); `drv` holds the driver's answers to
the calls of `create`, should it run. -/
def RHI_SwapChain.Resize (dev : RHI_Device) (s : RHI_SwapChain) (width height : Nat)
    (drv : CreateDriver) : Option (Outcome Bool) :=
  let s1 := { s with m_present := dev.ValidateResolution width height }
  if !s1.m_present then some ⟨true, s1, []⟩
  else if s1.m_width = width ∧ s1.m_height = height then some ⟨true, s1, []⟩
  else
    let d := _Vulkan_SwapChain.destroy s1.m_surface s1.m_swap_chain_view s1.m_resource_view
      s1.m_resource_view_acquiredSemaphore
    match _Vulkan_SwapChain.create dev width height s1.m_buffer_count s1.m_format s1.m_flags
        s1.m_window_handle d.surface d.swap_chain_view s1.m_resource d.image_views
        d.semaphores_image_acquired drv with
    | none => none
    | some c =>
      some ⟨c.ret,
        { s1 with
            m_width := c.width
            m_height := c.height
            m_surface := c.surface_out
            m_swap_chain_view := c.swap_chain_view_out
            m_resource := c.resource_textures
            m_resource_view := c.resource_views
            m_resource_view_acquiredSemaphore := c.resource_views_acquiredSemaphore
            m_initialized := c.ret },
        d.calls ++ c.calls⟩

/-- Modelled from the spec: the object as the member initialisers of `RHI_SwapChain.h`
leave it; the header is not among the sources. The spec calls this object uninitialized,
with no image acquired yet, and the arrays hold `state_max_render_target_count` null
entries. -/
def RHI_SwapChain.member_initialisers (state_max_render_target_count : Nat) : RHI_SwapChain :=
  { m_initialized := false
    m_present := true
    m_image_acquired := false
    m_image_index := 0
    m_buffer_count := 0
    m_width := 0
    m_height := 0
    m_format := 0
    m_flags := 0
    m_window_handle := 0
    m_rhi_device := none
    m_surface := 0
    m_swap_chain_view := 0
    m_resource := List.replicate state_max_render_target_count 0
    m_resource_view := List.replicate state_max_render_target_count 0
    m_resource_view_acquiredSemaphore := List.replicate state_max_render_target_count 0
    m_cmd_pool := 0
    m_cmd_lists := []
    m_layout := 0 }

/-- The members of `RHI_ConstantBuffer` that the translation unit reads or writes. -/
structure RHI_ConstantBuffer where
  m_rhi_device : Option RHI_Device
  m_buffer : Handle
  m_buffer_memory : Handle
  m_size : Nat

/-- The destructor `RHI_ConstantBuffer::~RHI_ConstantBuffer`: the driver operations it
issues, in order. `dev` is the device `m_rhi_device` points to (the destructor
dereferences the pointer in its first statement). -/
def RHI_ConstantBuffer.destructor (dev : RHI_Device) (s : RHI_ConstantBuffer) :
    List DriverCall :=
  [DriverCall.vkQueueWaitIdle dev.queue_graphics,
   DriverCall.buffer_destroy s.m_buffer,
   DriverCall.memory_free s.m_buffer_memory]

/-- Whether a driver call releases a buffer or its memory. -/
def DriverCall.is_release : DriverCall → Bool
  | DriverCall.buffer_destroy _ => true
  | DriverCall.memory_free _ => true
  | _ => false

/-- Whether a driver call creates or destroys the command pool or a command list. -/
def DriverCall.is_command_pool_or_list : DriverCall → Bool
  | DriverCall.command_pool_create => true
  | DriverCall.command_pool_destroy _ => true
  | DriverCall.make_RHI_CommandList _ => true
  | _ => false

/-- The number of image views created in a sequence of driver calls. -/
def image_views_created : List DriverCall → Nat
  | [] => 0
  | DriverCall.image_view_create _ :: cs => image_views_created cs + 1
  | _ :: cs => image_views_created cs

/-- The number of semaphores created in a sequence of driver calls. -/
def semaphores_created : List DriverCall → Nat
  | [] => 0
  | DriverCall.semaphore_create _ :: cs => semaphores_created cs + 1
  | _ :: cs => semaphores_created cs

/-- A successful acquisition that returns image `i`. -/
def acquired (i : Nat) : FrameCall :=
  FrameCall.AcquireNextImage ⟨true, some i⟩

/-- A device for the concrete runs below: any resolution with both sides positive is
valid, graphics and compute share a queue family. -/
def example_device : RHI_Device :=
  { device := 1
    queue_graphics := 2
    queue_graphics_index := 0
    queue_compute_index := 0
    ValidateResolution := fun w h => decide (0 < w ∧ 0 < h) }

/-- A driver for the concrete runs below: every call succeeds, extents from 1 to 4096,
surface 11, chain 12, the given images, view `31 + i` and semaphore `41 + i` for slot
`i`. -/
def example_driver (images : List Handle) : CreateDriver :=
  { surface_check := true
    surface := 11
    support_check := true
    present_support := true
    minImageExtent_width := 1
    maxImageExtent_width := 4096
    minImageExtent_height := 1
    maxImageExtent_height := 4096
    swap_chain_check := true
    swap_chain := 12
    swap_chain_images := images
    image_view_create := fun i => (true, 31 + i)
    semaphore_create := fun i => 41 + i }

/-- The swap chain that the constructor builds on `example_device` for window 5 at
800 x 600 with `buffer_count = 3`, when `example_driver` reports three images and the
arrays have eight entries. -/
def example_swap_chain : RHI_SwapChain :=
  { m_initialized := true
    m_present := true
    m_image_acquired := false
    m_image_index := 0
    m_buffer_count := 3
    m_width := 800
    m_height := 600
    m_format := 0
    m_flags := 0
    m_window_handle := 5
    m_rhi_device := some example_device
    m_surface := 11
    m_swap_chain_view := 12
    m_resource := [21, 22, 23, 0, 0, 0, 0, 0]
    m_resource_view := [31, 32, 33, 0, 0, 0, 0, 0]
    m_resource_view_acquiredSemaphore := [41, 42, 43, 0, 0, 0, 0, 0]
    m_cmd_pool := 51
    m_cmd_lists := [0, 1, 2]
    m_layout := 0 }

/-- The driver calls of the construction that builds `example_swap_chain`. -/
def example_construction_calls : List DriverCall :=
  [DriverCall.vkCreateWin32SurfaceKHR 5,
   DriverCall.vkGetPhysicalDeviceSurfaceSupportKHR 0 11,
   DriverCall.surface_capabilities 11,
   DriverCall.detect_format_and_color_space 11,
   DriverCall.set_present_mode 11 0,
   DriverCall.vkCreateSwapchainKHR 11 3 800 600 false,
   DriverCall.vkGetSwapchainImagesKHR 12,
   DriverCall.vkGetSwapchainImagesKHR 12,
   DriverCall.set_image_name 21,
   DriverCall.image_view_create 21,
   DriverCall.set_image_name 22,
   DriverCall.image_view_create 22,
   DriverCall.set_image_name 23,
   DriverCall.image_view_create 23,
   DriverCall.semaphore_create 0,
   DriverCall.semaphore_create 1,
   DriverCall.semaphore_create 2,
   DriverCall.command_pool_create,
   DriverCall.make_RHI_CommandList 0,
   DriverCall.make_RHI_CommandList 1,
   DriverCall.make_RHI_CommandList 2]

/-- The first `n` iterations of the loop of `RHI_SwapChain::SetLayout` (lines 387-390):
the calls issued. Reading `m_resource[i]` outside the array has no defined behaviour. -/
def RHI_SwapChain.SetLayout_loop (s : RHI_SwapChain) (cmd_buffer : Handle) (layout : Nat) :
    Nat → Option (List DriverCall)
  | 0 => some []
  | n + 1 =>
    match RHI_SwapChain.SetLayout_loop s cmd_buffer layout n with
    | none => none
    | some calls =>
      match s.m_resource[n]? with
      | none => none
      | some image => some (calls ++ [DriverCall.image_set_layout cmd_buffer image layout])

/-- The method `RHI_SwapChain::SetLayout`. `command_list` is `none` for a null pointer
and otherwise the command buffer of the list, `GetResource_CommandBuffer()`. -/
def RHI_SwapChain.SetLayout (s : RHI_SwapChain) (layout : Nat) (command_list : Option Handle) :
    Option (Outcome Unit) :=
  if s.m_layout = layout then some ⟨(), s, []⟩
  else
    match command_list with
    | none => some ⟨(), { s with m_layout := layout }, []⟩
    | some cmd_buffer =>
      match s.SetLayout_loop cmd_buffer layout s.m_buffer_count with
      | none => none
      | some calls => some ⟨(), { s with m_layout := layout }, calls⟩

/-- The buffers (each with its size) and the memory allocations that are live on the
logical device. -/
structure DeviceAllocations where
  buffers : List (Handle × Nat)
  memory : List Handle
  deriving DecidableEq, Repr

/-- Modelled from the spec: `vulkan_common::buffer::destroy`, whose body is not among the
sources. The spec says that `Create` first destroys "any previously allocated
buffer/memory for this resource": a buffer that is not null stops being live, and the
handle, passed by reference, is left null. Returns the live objects and the handle. -/
def vulkan_common.buffer.destroy (live : DeviceAllocations) (buffer : Handle) :
    DeviceAllocations × Handle :=
  if buffer = 0 then (live, 0)
  else ({ live with buffers := live.buffers.filter (fun b => b.1 != buffer) }, 0)

/-- Modelled from the spec: `vulkan_common::memory::free`, whose body is not among the
sources; as `vulkan_common.buffer.destroy`, for the memory allocation. -/
def vulkan_common.memory.free (live : DeviceAllocations) (memory : Handle) :
    DeviceAllocations × Handle :=
  if memory = 0 then (live, 0)
  else ({ live with memory := live.memory.filter (fun m => m != memory) }, 0)

/-- The outcome of one `vulkan_common::buffer::create`: what it returns and the handles it
leaves in `_buffer` and `buffer_memory`. -/
structure BufferCreateResponse where
  ret : Bool
  buffer : Handle
  buffer_memory : Handle
  deriving DecidableEq, Repr

/-- Modelled from the spec: `vulkan_common::buffer::create`, whose body is not among the
sources. The spec says it "allocates a device buffer ... backed by host-visible,
host-coherent memory": a handle it leaves that is not null is an object it made, which
is live from then on, the buffer with the size asked for. Returns the live objects, the
two handles and the return value. -/
def vulkan_common.buffer.create (live : DeviceAllocations) (size : Nat)
    (r : BufferCreateResponse) : DeviceAllocations × Handle × Handle × Bool :=
  ({ buffers := live.buffers ++ (if r.buffer = 0 then [] else [(r.buffer, size)])
     memory := live.memory ++ (if r.buffer_memory = 0 then [] else [r.buffer_memory]) },
   r.buffer, r.buffer_memory, r.ret)

/-- What a method of the constant buffer did: its return value, the object afterwards,
the live objects of the device afterwards, and the calls it issued. -/
structure BufferOutcome where
  ret : Bool
  state : RHI_ConstantBuffer
  live : DeviceAllocations
  calls : List DriverCall

/-- The method `RHI_ConstantBuffer::_Create`; `r` is the outcome of the allocation, should
it be reached. -/
def RHI_ConstantBuffer._Create (s : RHI_ConstantBuffer) (live : DeviceAllocations)
    (r : BufferCreateResponse) : BufferOutcome :=
  match s.m_rhi_device with
  | none => ⟨false, s, live, []⟩
  | some dev =>
    if dev.device = 0 then ⟨false, s, live, []⟩
    else
      let destroyed := vulkan_common.buffer.destroy live s.m_buffer
      let freed := vulkan_common.memory.free destroyed.1 s.m_buffer_memory
      let created := vulkan_common.buffer.create freed.1 s.m_size r
      ⟨created.2.2.2,
       { s with m_buffer := created.2.1, m_buffer_memory := created.2.2.1 },
       created.1,
       [DriverCall.buffer_destroy s.m_buffer, DriverCall.memory_free s.m_buffer_memory,
        DriverCall.buffer_create s.m_size]⟩

/-- Modelled from the spec: the public `Create` of `RHI_ConstantBuffer.h`, which is not
among the sources. The spec writes it `Create(size) → bool`: it stores the size the
buffer is to have and runs `_Create`. -/
def RHI_ConstantBuffer.Create (s : RHI_ConstantBuffer) (size : Nat)
    (live : DeviceAllocations) (r : BufferCreateResponse) : BufferOutcome :=
  RHI_ConstantBuffer._Create { s with m_size := size } live r

/-- The live objects of the device are exactly the ones the resource holds a handle
to: the device serves this resource only and the resource has leaked nothing. -/
def RHI_ConstantBuffer.owns (s : RHI_ConstantBuffer) (live : DeviceAllocations) : Prop :=
  live.buffers.map Prod.fst = (if s.m_buffer = 0 then [] else [s.m_buffer]) ∧
  live.memory = (if s.m_buffer_memory = 0 then [] else [s.m_buffer_memory])

/-- The live objects other than the buffer behind `buffer` and the memory allocation
behind `memory`; a null handle stands for no object. -/
def DeviceAllocations.without (live : DeviceAllocations) (buffer memory : Handle) :
    DeviceAllocations :=
  { buffers := live.buffers.filter (fun b => buffer == 0 || b.1 != buffer)
    memory := live.memory.filter (fun m => memory == 0 || m != memory) }

/-- Calling `Create` with `size1` and then `Create` with `size2` on the same resource:
what the second call returns, the object and the live objects at the end, and the calls
of both in order. -/
def RHI_ConstantBuffer.Create_twice (s : RHI_ConstantBuffer) (live : DeviceAllocations)
    (size1 : Nat) (r1 : BufferCreateResponse) (size2 : Nat) (r2 : BufferCreateResponse) :
    BufferOutcome :=
  let first := s.Create size1 live r1
  let second := first.state.Create size2 first.live r2
  ⟨second.ret, second.state, second.live, first.calls ++ second.calls⟩

/-- A constant buffer on `example_device` that has not allocated yet. -/
def example_constant_buffer : RHI_ConstantBuffer :=
  { m_rhi_device := some example_device
    m_buffer := 0
    m_buffer_memory := 0
    m_size := 0 }

theorem getElem?_of_lt {α : Type} (l : List α) (i : Nat) (h : i < l.length) :
    ∃ a, l[i]? = some a := ⟨l[i], List.getElem?_eq_getElem h⟩

theorem AcquireNextImage_presentable (s : RHI_SwapChain) (r : AcquireResponse)
    (hp : s.m_present = true) (hn : 0 < s.m_buffer_count)
    (he : s.m_buffer_count ≤ s.m_resource_view_acquiredSemaphore.length) :
    ∃ semaphore, s.AcquireNextImage r = some
      ⟨r.check,
       { s with m_image_acquired := r.check,
                m_image_index := r.pImageIndex.getD s.m_image_index },
       s.AcquireNextImage_reset ++
         [DriverCall.vkAcquireNextImageKHR s.m_swap_chain_view
           (if s.m_image_acquired then (s.m_image_index + 1) % 4294967296 % s.m_buffer_count
            else 0) semaphore]⟩ := by
  cases hacq : s.m_image_acquired
  · obtain ⟨sem, hsem⟩ := getElem?_of_lt s.m_resource_view_acquiredSemaphore 0 (by omega)
    refine ⟨sem, ?_⟩
    simp [RHI_SwapChain.AcquireNextImage, RHI_SwapChain.AcquireNextImage_index, hp, hacq, hsem]
  · obtain ⟨sem, hsem⟩ := getElem?_of_lt s.m_resource_view_acquiredSemaphore
      ((s.m_image_index + 1) % 4294967296 % s.m_buffer_count)
      (lt_of_lt_of_le (Nat.mod_lt _ hn) he)
    refine ⟨sem, ?_⟩
    have hne : s.m_buffer_count ≠ 0 := by omega
    simp [RHI_SwapChain.AcquireNextImage, RHI_SwapChain.AcquireNextImage_index, hp, hacq, hsem, hne]

theorem acquire_slots_append (a b : List DriverCall) :
    acquire_slots (a ++ b) = acquire_slots a ++ acquire_slots b := by
  induction a with
  | nil => rfl
  | cons c cs ih => cases c <;> simp [acquire_slots, ih]

theorem acquire_slots_reset (s : RHI_SwapChain) :
    acquire_slots s.AcquireNextImage_reset = [] := by
  unfold RHI_SwapChain.AcquireNextImage_reset
  split <;> rfl

theorem frame_calls_cons (s : RHI_SwapChain) (c : FrameCall) (cs : List FrameCall)
    (o1 : Outcome Bool) (o2 : Outcome (List Bool)) (h1 : s.frame_call c = some o1)
    (h2 : o1.state.frame_calls cs = some o2) :
    s.frame_calls (c :: cs) = some ⟨o1.ret :: o2.ret, o2.state, o1.calls ++ o2.calls⟩ := by
  simp [RHI_SwapChain.frame_calls, h1, h2]

/-- The slots of a run of successful acquisitions, from any presentable object. -/
theorem acquire_slots_of_successes (n : Nat) (hn : 0 < n) (indices : List Nat) :
    ∀ s : RHI_SwapChain, s.m_present = true → s.m_buffer_count = n →
      n ≤ s.m_resource_view_acquiredSemaphore.length →
      ∃ o, s.frame_calls (indices.map acquired) = some o ∧
        o.ret = List.replicate indices.length true ∧
        acquire_slots o.calls =
          ((if s.m_image_acquired then (s.m_image_index + 1) % 4294967296 % n else 0) ::
            indices.map (fun i => (i + 1) % 4294967296 % n)).take indices.length := by
  induction indices with
  | nil => intro s _ _ _; exact ⟨_, rfl, rfl, rfl⟩
  | cons i rest ih =>
    intro s hp hb he
    obtain ⟨sem, hsem⟩ :=
      AcquireNextImage_presentable s ⟨true, some i⟩ hp (by omega) (by omega)
    obtain ⟨o, ho, hret, hslots⟩ := ih
      { s with m_image_acquired := true, m_image_index := i } hp hb he
    refine ⟨_, frame_calls_cons s (acquired i) (rest.map acquired) _ o hsem ho, ?_, ?_⟩
    · simp [hret, List.replicate_succ]
    · simp only [acquire_slots_append, acquire_slots_reset, acquire_slots, hslots, hb]
      simp

theorem round_robin_of_lockstep (k : Nat) :
    (0 :: ((List.range k).map (fun j => j % 3)).map (fun i => (i + 1) % 4294967296 % 3)).take k
      = (List.range k).map (fun j => j % 3) := by
  apply List.ext_getElem
  · simp
  · intro j h1 h2
    simp at h1 h2
    cases j with
    | zero => simp
    | succ j =>
      simp
      omega

/-- C1, as stated, fails: on a presentable three-buffer chain that has never acquired,
three successful acquisitions to which the driver returns the images 0, 2, 1 use the
slots 0, 1, 0, not the round-robin 0, 1, 2. -/
theorem C1_slots_depend_on_returned_index :
    (example_swap_chain.m_present = true ∧ example_swap_chain.m_buffer_count = 3 ∧
      example_swap_chain.m_image_acquired = false) ∧
    (example_swap_chain.frame_calls [acquired 0, acquired 2, acquired 1]).map
      (fun o => (o.ret, acquire_slots o.calls)) = some ([true, true, true], [0, 1, 0]) ∧
    [0, 1, 0] ≠ (List.range 3).map (fun k => k % 3) := by
  decide

/-- C1, amended: on a presentable swap chain with `buffer_count = 3` that has not
acquired an image (and whose semaphore array has its three slots), every run of
successful acquisitions is defined, each call returns true, the first call uses slot 0
and each later call uses slot `(i + 1) mod 3` (in 32-bit arithmetic) where `i` is the
image index the driver returned to the call before it. The slots are the round-robin
0, 1, 2, 0, 1, 2, ... when the driver returns the images in that same order. -/
theorem C1_slots_follow_returned_index (s : RHI_SwapChain) (indices : List Nat)
    (hp : s.m_present = true) (hb : s.m_buffer_count = 3)
    (hacq : s.m_image_acquired = false)
    (he : 3 ≤ s.m_resource_view_acquiredSemaphore.length) :
    ∃ o, s.frame_calls (indices.map acquired) = some o ∧
      o.ret = List.replicate indices.length true ∧
      acquire_slots o.calls =
        (0 :: indices.map (fun i => (i + 1) % 4294967296 % 3)).take indices.length ∧
      (indices = (List.range indices.length).map (fun k => k % 3) →
        acquire_slots o.calls = (List.range indices.length).map (fun k => k % 3)) := by
  obtain ⟨o, ho, hret, hslots⟩ := acquire_slots_of_successes 3 (by decide) indices s hp hb he
  simp only [hacq, Bool.false_eq_true, if_false] at hslots
  refine ⟨o, ho, hret, hslots, fun hlock => ?_⟩
  rw [hslots]
  have h := round_robin_of_lockstep indices.length
  rw [← hlock] at h
  exact h.trans hlock

/-- C1, amended, at the three-buffer chain and the returned images 0, 1, 2, 0. -/
theorem C1_slots_follow_returned_index_witness :
    ∃ o, example_swap_chain.frame_calls ([0, 1, 2, 0].map acquired) = some o ∧
      o.ret = List.replicate [0, 1, 2, 0].length true ∧
      acquire_slots o.calls =
        (0 :: [0, 1, 2, 0].map (fun i => (i + 1) % 4294967296 % 3)).take [0, 1, 2, 0].length ∧
      ([0, 1, 2, 0] = (List.range [0, 1, 2, 0].length).map (fun k => k % 3) →
        acquire_slots o.calls = (List.range [0, 1, 2, 0].length).map (fun k => k % 3)) :=
  C1_slots_follow_returned_index example_swap_chain [0, 1, 2, 0] (by decide) (by decide)
    (by decide) (by decide)

/-- C2, as stated, fails: on the three-buffer chain a successful acquisition of image 0
followed by a failed one leaves `m_image_index = 0`, and the next call uses slot 0
again, not `(0 + 1) mod 3`. -/
theorem C2_failed_acquire_restarts_at_slot_zero :
    (example_swap_chain.m_present = true ∧ 1 ≤ example_swap_chain.m_buffer_count) ∧
    (example_swap_chain.frame_calls
        [acquired 0, FrameCall.AcquireNextImage ⟨false, none⟩]).map
      (fun o => (o.ret, o.state.m_image_index)) = some ([true, false], 0) ∧
    (example_swap_chain.frame_calls
        [acquired 0, FrameCall.AcquireNextImage ⟨false, none⟩, acquired 1]).map
      (fun o => acquire_slots o.calls) = some [0, 1, 0] ∧
    (0 + 1) % 3 ≠ 0 := by
  decide

/-- C2, amended: for every presentable swap chain state with `buffer_count >= 1` (and a
semaphore array of at least `buffer_count` slots) `AcquireNextImage` is defined and
hands the driver the semaphore of slot 0 if `m_image_acquired` is false, and of slot
`(m_image_index + 1) mod buffer_count` (the sum in 32-bit arithmetic) otherwise; the call
sets `m_image_acquired` to whether this acquisition succeeded, so the flag says whether
the most recent acquisition succeeded, not whether one ever did. -/
theorem C2_slot_of_acquisition (s : RHI_SwapChain) (r : AcquireResponse)
    (hp : s.m_present = true) (hn : 1 ≤ s.m_buffer_count)
    (he : s.m_buffer_count ≤ s.m_resource_view_acquiredSemaphore.length) :
    ∃ o, s.AcquireNextImage r = some o ∧
      acquire_slots o.calls =
        [if s.m_image_acquired then (s.m_image_index + 1) % 4294967296 % s.m_buffer_count
         else 0] ∧
      o.ret = r.check ∧ o.state.m_image_acquired = r.check := by
  obtain ⟨sem, hsem⟩ := AcquireNextImage_presentable s r hp hn he
  refine ⟨_, hsem, ?_, rfl, rfl⟩
  simp [acquire_slots_append, acquire_slots_reset, acquire_slots]

/-- C2, amended, at the three-buffer chain and a failed acquisition. -/
theorem C2_slot_of_acquisition_witness :
    ∃ o, example_swap_chain.AcquireNextImage ⟨false, none⟩ = some o ∧
      acquire_slots o.calls =
        [if example_swap_chain.m_image_acquired then
           (example_swap_chain.m_image_index + 1) % 4294967296 %
             example_swap_chain.m_buffer_count
         else 0] ∧
      o.ret = false ∧ o.state.m_image_acquired = false :=
  C2_slot_of_acquisition example_swap_chain ⟨false, none⟩ (by decide) (by decide) (by decide)

/-- C3, as stated, fails: after one successful acquisition and one `Present`, a second
`Present` with no acquisition in between returns what the queue returns (true here) and
submits again. -/
theorem C3_second_present_submits_again :
    example_swap_chain.m_present = true ∧
    (example_swap_chain.frame_calls
        [acquired 0, FrameCall.Present true, FrameCall.Present true]).map
      (fun o => (o.ret, o.calls)) =
      some ([true, true, true],
        [DriverCall.vkAcquireNextImageKHR 12 0 41, DriverCall.Queue_Present 12 0,
         DriverCall.Queue_Present 12 0]) := by
  decide

/-- C3, amended: for every presentable swap chain state whose `m_image_acquired` is
false, `Present` returns false, issues no driver call and leaves the object as it was;
and `m_image_acquired` is false after every acquisition on a presentable chain that did
not succeed. -/
theorem C3_present_without_acquired_image (s : RHI_SwapChain) (queue_present : Bool)
    (hp : s.m_present = true) (hacq : s.m_image_acquired = false) :
    s.Present queue_present = ⟨false, s, []⟩ ∧
    present_submissions (s.Present queue_present).calls = 0 ∧
    ∀ (s0 : RHI_SwapChain) (r : AcquireResponse) (o : Outcome Bool),
      s0.m_present = true → r.check = false → s0.AcquireNextImage r = some o →
        o.ret = false ∧ o.state.m_present = true ∧ o.state.m_image_acquired = false := by
  have h : s.Present queue_present = ⟨false, s, []⟩ := by
    simp [RHI_SwapChain.Present, hp, hacq]
  refine ⟨h, by rw [h]; rfl, ?_⟩
  intro s0 r o hp0 hr ho
  unfold RHI_SwapChain.AcquireNextImage at ho
  simp only [hp0, Bool.not_true, Bool.false_eq_true, if_false] at ho
  split at ho
  · exact absurd ho (by simp)
  · split at ho
    · exact absurd ho (by simp)
    · simp only [Option.some.injEq] at ho
      subst ho
      exact ⟨hr, rfl, hr⟩

/-- C3, amended, at the three-buffer chain before any acquisition. -/
theorem C3_present_without_acquired_image_witness :
    example_swap_chain.Present true = ⟨false, example_swap_chain, []⟩ ∧
    present_submissions (example_swap_chain.Present true).calls = 0 ∧
    ∀ (s0 : RHI_SwapChain) (r : AcquireResponse) (o : Outcome Bool),
      s0.m_present = true → r.check = false → s0.AcquireNextImage r = some o →
        o.ret = false ∧ o.state.m_present = true ∧ o.state.m_image_acquired = false :=
  C3_present_without_acquired_image example_swap_chain true (by decide) (by decide)

theorem frame_calls_not_presentable (s : RHI_SwapChain) (hp : s.m_present = false)
    (calls : List FrameCall) :
    s.frame_calls calls = some ⟨List.replicate calls.length true, s, []⟩ := by
  induction calls with
  | nil => rfl
  | cons c cs ih =>
    have h1 : s.frame_call c = some ⟨true, s, []⟩ := by
      cases c with
      | AcquireNextImage r => simp [RHI_SwapChain.frame_call, RHI_SwapChain.AcquireNextImage, hp]
      | Present q => simp [RHI_SwapChain.frame_call, RHI_SwapChain.Present, hp]
    rw [frame_calls_cons s c cs _ _ h1 ih]
    simp [List.replicate_succ]

/-- C4: when the device's `ValidateResolution` rejects `(width, height)`, `Resize`
returns true and issues no call; the object afterwards differs from the one before only
in `m_present`, which is false (dimensions, surface, chain, views and semaphores are
the old ones); and every sequence of `AcquireNextImage` and `Present` calls made on it
afterwards returns true each time, issues no driver call and leaves the object alone,
whatever the driver would have answered. -/
theorem C4_resize_rejected_resolution (dev : RHI_Device) (s : RHI_SwapChain)
    (width height : Nat) (drv : CreateDriver) (calls : List FrameCall)
    (hv : dev.ValidateResolution width height = false) :
    s.Resize dev width height drv = some ⟨true, { s with m_present := false }, []⟩ ∧
    ({ s with m_present := false } : RHI_SwapChain).frame_calls calls =
      some ⟨List.replicate calls.length true, { s with m_present := false }, []⟩ := by
  constructor
  · simp [RHI_SwapChain.Resize, hv]
  · exact frame_calls_not_presentable _ rfl calls

/-- C4 at the three-buffer chain, minimised to 0 x 0, followed by an acquisition and a
presentation. -/
theorem C4_resize_rejected_resolution_witness :
    example_swap_chain.Resize example_device 0 0 (example_driver [21, 22, 23]) =
      some ⟨true, { example_swap_chain with m_present := false }, []⟩ ∧
    ({ example_swap_chain with m_present := false } : RHI_SwapChain).frame_calls
        [acquired 0, FrameCall.Present true] =
      some ⟨List.replicate [acquired 0, FrameCall.Present true].length true,
        { example_swap_chain with m_present := false }, []⟩ :=
  C4_resize_rejected_resolution example_device example_swap_chain 0 0
    (example_driver [21, 22, 23]) [acquired 0, FrameCall.Present true] (by decide)

/-- C5: `Resize` with the stored width and height returns true and issues no driver call
(no destroy, no create); the object afterwards differs from the one before at most in
`m_present`, which holds what `ValidateResolution` says of the stored dimensions, so
the surface, swap chain, image views, acquisition semaphores, command pool, command
lists and stored dimensions are the ones before the call. -/
theorem C5_resize_same_dimensions (dev : RHI_Device) (s : RHI_SwapChain)
    (drv : CreateDriver) :
    s.Resize dev s.m_width s.m_height drv =
      some ⟨true,
        { s with m_present := dev.ValidateResolution s.m_width s.m_height }, []⟩ := by
  cases hv : dev.ValidateResolution s.m_width s.m_height <;>
    simp [RHI_SwapChain.Resize, hv]

open _Vulkan_SwapChain

theorem image_views_created_append (a b : List DriverCall) :
    image_views_created (a ++ b) = image_views_created a + image_views_created b := by
  induction a with
  | nil => simp [image_views_created]
  | cons c cs ih =>
    cases c <;> simp [image_views_created, ih]
    omega

theorem semaphores_created_append (a b : List DriverCall) :
    semaphores_created (a ++ b) = semaphores_created a + semaphores_created b := by
  induction a with
  | nil => simp [semaphores_created]
  | cons c cs ih =>
    cases c <;> simp [semaphores_created, ih]
    omega

/-- What the image view loop has done after `n` iterations. -/
theorem create_image_views_spec (drv : CreateDriver) (tex views : List Handle) :
    ∀ (n : Nat) (st : ImageViews), create_image_views drv tex views n = some st →
      st.resource_textures.length = tex.length ∧ st.resource_views.length = views.length ∧
      semaphores_created st.calls = 0 ∧
      (∀ c ∈ st.calls, c.is_command_pool_or_list = false) ∧
      (st.ok = true →
        image_views_created st.calls = n ∧ n ≤ drv.swap_chain_images.length ∧
        (∀ i, i < n → st.resource_textures[i]? = drv.swap_chain_images[i]?) ∧
        (∀ i, i < n → st.resource_views[i]? = some (drv.image_view_create i).2)) := by
  intro n
  induction n with
  | zero =>
    intro st h
    simp only [create_image_views, Option.some.injEq] at h
    subst h
    simp [semaphores_created, image_views_created]
  | succ n ih =>
    intro st h
    simp only [create_image_views] at h
    split at h
    · exact absurd h (by simp)
    · rename_i st0 h0
      obtain ⟨hl1, hl2, hs, hp, hok⟩ := ih st0 h0
      split at h
      · rename_i hnok
        simp only [Option.some.injEq] at h
        subst h
        refine ⟨hl1, hl2, hs, hp, fun hok2 => ?_⟩
        simp [hok2] at hnok
      · rename_i hok1
        simp only [Bool.not_eq_true, Bool.not_eq_false] at hok1
        obtain ⟨hcount, hle, htex, hview⟩ := hok (by simpa using hok1)
        split at h
        · exact absurd h (by simp)
        · rename_i image himg
          split at h
          · rename_i hb
            simp only [Option.some.injEq] at h
            subst h
            refine ⟨by simp [hl1], by simp [hl2], ?_, ?_, fun _ => ⟨?_, ?_, ?_, ?_⟩⟩
            · simp [semaphores_created_append, hs, semaphores_created]
            · intro c hc
              simp only [List.mem_append, List.mem_cons, List.mem_singleton, List.not_mem_nil,
                or_false] at hc
              rcases hc with hc | hc | hc
              · exact hp c hc
              · subst hc; rfl
              · subst hc; rfl
            · simp [image_views_created_append, hcount, image_views_created]
            · have := (List.getElem?_eq_some.mp himg).1
              omega
            · intro i hi
              by_cases hin : i = n
              · subst hin
                simp [List.getElem?_set, hb.1, himg]
              · rw [List.getElem?_set_ne (Ne.symm hin)]
                exact htex i (by omega)
            · intro i hi
              by_cases hin : i = n
              · subst hin
                simp [List.getElem?_set, hb.2]
              · rw [List.getElem?_set_ne (Ne.symm hin)]
                exact hview i (by omega)
          · exact absurd h (by simp)

/-- What the semaphore loop has done after `n` iterations. -/
theorem create_semaphores_spec (drv : CreateDriver) (sems : List Handle) :
    ∀ (n : Nat) (st : List Handle × List DriverCall), create_semaphores drv sems n = some st →
      st.1.length = sems.length ∧ n ≤ sems.length ∧
      semaphores_created st.2 = n ∧ image_views_created st.2 = 0 ∧
      (∀ c ∈ st.2, c.is_command_pool_or_list = false) ∧
      (∀ i, i < n → st.1[i]? = some (drv.semaphore_create i)) := by
  intro n
  induction n with
  | zero =>
    intro st h
    simp only [create_semaphores, Option.some.injEq] at h
    subst h
    simp [semaphores_created, image_views_created]
  | succ n ih =>
    intro st h
    simp only [create_semaphores] at h
    split at h
    · exact absurd h (by simp)
    · rename_i st0 h0
      obtain ⟨hl, hle, hs, hv, hp, hsem⟩ := ih st0 h0
      split at h
      · rename_i hb
        simp only [Option.some.injEq] at h
        subst h
        refine ⟨by simp [hl], by omega, ?_, ?_, ?_, ?_⟩
        · simp [semaphores_created_append, hs, semaphores_created]
        · simp [image_views_created_append, hv, image_views_created]
        · intro c hc
          simp only [List.mem_append, List.mem_singleton] at hc
          rcases hc with hc | hc
          · exact hp c hc
          · subst hc; rfl
        · intro i hi
          by_cases hin : i = n
          · subst hin
            simp [List.getElem?_set, hb]
          · simp only [List.getElem?_set_ne (Ne.symm hin)]
            exact hsem i (by omega)
      · exact absurd h (by simp)

/-- No call of `create` touches the command pool or the command lists. -/
theorem create_calls_not_command_pool (ctx : RHI_Device)
    (width height buffer_count format flags : Nat) (window surface chain : Handle)
    (tex views sems : List Handle) (drv : CreateDriver) (c : CreateResult)
    (h : create ctx width height buffer_count format flags window surface chain tex views
      sems drv = some c) :
    ∀ x ∈ c.calls, x.is_command_pool_or_list = false := by
  unfold create at h
  simp only at h
  split at h
  · simp only [Option.some.injEq] at h
    subst h
    intro x hx
    simp only [List.mem_singleton] at hx
    subst hx; rfl
  · split at h
    · simp only [Option.some.injEq] at h
      subst h
      intro x hx
      simp only [List.mem_append, List.mem_singleton] at hx
      rcases hx with hx | hx <;> (subst hx; rfl)
    · split at h
      · simp only [Option.some.injEq] at h
        subst h
        intro x hx
        simp only [List.mem_append, List.mem_cons, List.mem_singleton, List.not_mem_nil,
          or_false] at hx
        rcases hx with (hx | hx) | hx | hx | hx | hx <;> (subst hx; rfl)
      · split at h
        · exact absurd h (by simp)
        · rename_i iv hiv
          have hp := (create_image_views_spec drv tex views _ iv hiv).2.2.2.1
          split at h
          · simp only [Option.some.injEq] at h
            subst h
            intro x hx
            simp only [List.mem_append, List.mem_cons, List.mem_singleton, List.not_mem_nil,
              or_false] at hx
            rcases hx with (((hx | hx) | hx | hx | hx | hx) | hx | hx) | hx
            all_goals first | exact hp x hx | (subst hx; rfl)
          · split at h
            · exact absurd h (by simp)
            · rename_i sem hsem
              have hq := (create_semaphores_spec drv sems _ sem hsem).2.2.2.2.1
              simp only [Option.some.injEq] at h
              subst h
              intro x hx
              simp only [List.mem_append, List.mem_cons, List.mem_singleton, List.not_mem_nil,
                or_false] at hx
              rcases hx with ((((hx | hx) | hx | hx | hx | hx) | hx | hx) | hx) | hx
              all_goals first | exact hp x hx | exact hq x hx | (subst hx; rfl)

/-- What a successful `create` has made. -/
theorem create_success (ctx : RHI_Device)
    (width height buffer_count format flags : Nat) (window surface chain : Handle)
    (tex views sems : List Handle) (drv : CreateDriver) (c : CreateResult)
    (h : create ctx width height buffer_count format flags window surface chain tex views
      sems drv = some c) (hret : c.ret = true) :
    image_views_created c.calls = drv.swap_chain_images.length ∧
    semaphores_created c.calls = buffer_count ∧
    c.resource_textures.take drv.swap_chain_images.length = drv.swap_chain_images ∧
    (∀ i, i < drv.swap_chain_images.length →
      c.resource_views[i]? = some (drv.image_view_create i).2) ∧
    (∀ i, i < buffer_count →
      c.resource_views_acquiredSemaphore[i]? = some (drv.semaphore_create i)) := by
  unfold create at h
  simp only at h
  split at h
  · simp only [Option.some.injEq] at h
    subst h
    exact absurd hret (by simp)
  · split at h
    · simp only [Option.some.injEq] at h
      subst h
      exact absurd hret (by simp)
    · split at h
      · simp only [Option.some.injEq] at h
        subst h
        exact absurd hret (by simp)
      · split at h
        · exact absurd h (by simp)
        · rename_i iv hiv
          obtain ⟨hl1, -, hs0, -, hok⟩ := create_image_views_spec drv tex views _ iv hiv
          split at h
          · simp only [Option.some.injEq] at h
            subst h
            exact absurd hret (by simp)
          · rename_i hivok
            obtain ⟨hcount, -, htex, hview⟩ := hok (by simpa using hivok)
            split at h
            · exact absurd h (by simp)
            · rename_i sem hsem
              obtain ⟨-, -, hsc, hvc, -, hsems⟩ := create_semaphores_spec drv sems _ sem hsem
              simp only [Option.some.injEq] at h
              subst h
              refine ⟨?_, ?_, ?_, hview, hsems⟩
              · simp [image_views_created_append, image_views_created, hcount, hvc]
              · simp [semaphores_created_append, semaphores_created, hs0, hsc]
              · apply List.ext_getElem?
                intro i
                by_cases hi : i < drv.swap_chain_images.length
                · rw [List.getElem?_take_of_lt hi]
                  exact htex i hi
                · rw [List.getElem?_take_eq_none (by omega)]
                  exact (List.getElem?_eq_none (by omega)).symm

open _Vulkan_SwapChain

theorem image_views_created_command_lists (l : List Nat) :
    image_views_created (l.map DriverCall.make_RHI_CommandList) = 0 := by
  induction l with
  | nil => rfl
  | cons a l ih => simpa [image_views_created] using ih

theorem semaphores_created_command_lists (l : List Nat) :
    semaphores_created (l.map DriverCall.make_RHI_CommandList) = 0 := by
  induction l with
  | nil => rfl
  | cons a l ih => simpa [semaphores_created] using ih

/-- C6, as stated, fails: constructing with `buffer_count = 2` on a driver that reports
three images for the chain (it was asked for at least two) succeeds, creates three image
views, records three images and creates two semaphores. -/
theorem C6_driver_reports_more_images :
    (RHI_SwapChain.constructor (RHI_SwapChain.member_initialisers 8) 5 true
        (some example_device) 800 600 0 2 0 (example_driver [21, 22, 23]) 51).map
      (fun o => (o.state.m_initialized, image_views_created o.calls, o.state.m_resource,
        semaphores_created o.calls)) =
      some (true, 3, [21, 22, 23, 0, 0, 0, 0, 0], 2) ∧
    3 ≠ 2 := by
  decide

/-- C6, amended: after every successful construction (the object was uninitialized
before and is initialized after), the number of image views created is the number of
images the driver reports for the chain, the first that many entries of `m_resource` are
exactly those images, and the number of acquisition semaphores created is
`buffer_count`; the three numbers agree when the driver reports `buffer_count` images. -/
theorem C6_counts_after_construction (this : RHI_SwapChain) (window_handle : Handle)
    (is_window : Bool) (rhi_device : Option RHI_Device)
    (width height format buffer_count flags : Nat) (drv : CreateDriver) (cmd_pool : Handle)
    (o : Outcome Unit) (h0 : this.m_initialized = false)
    (hc : RHI_SwapChain.constructor this window_handle is_window rhi_device width height
      format buffer_count flags drv cmd_pool = some o)
    (hi : o.state.m_initialized = true) :
    image_views_created o.calls = drv.swap_chain_images.length ∧
    o.state.m_resource.take drv.swap_chain_images.length = drv.swap_chain_images ∧
    semaphores_created o.calls = buffer_count ∧
    o.state.m_buffer_count = buffer_count := by
  have hthis : ∀ calls, some (⟨(), this, calls⟩ : Outcome Unit) = some o → False := by
    intro calls h
    simp only [Option.some.injEq] at h
    subst h
    simp [h0] at hi
  unfold RHI_SwapChain.constructor at hc
  split at hc
  · exact (hthis _ hc).elim
  · rename_i dev
    split at hc
    · exact (hthis _ hc).elim
    · split at hc
      · exact (hthis _ hc).elim
      · split at hc
        · exact (hthis _ hc).elim
        · split at hc
          · exact absurd hc (by simp)
          · rename_i c hcreate
            simp only [Option.some.injEq] at hc
            subst hc
            obtain ⟨hv, hs, ht, -, -⟩ := create_success _ _ _ _ _ _ _ _ _ _ _ _ _ c hcreate hi
            refine ⟨?_, ht, ?_, rfl⟩
            · simp [image_views_created_append, image_views_created_command_lists, hv,
                image_views_created]
            · simp [semaphores_created_append, semaphores_created_command_lists, hs,
                semaphores_created]

/-- C6, amended, at the construction of the three-buffer chain. -/
theorem C6_counts_after_construction_witness :
    image_views_created example_construction_calls = [21, 22, 23].length ∧
    example_swap_chain.m_resource.take [21, 22, 23].length = [21, 22, 23] ∧
    semaphores_created example_construction_calls = 3 ∧
    example_swap_chain.m_buffer_count = 3 :=
  C6_counts_after_construction (RHI_SwapChain.member_initialisers 8) 5 true
    (some example_device) 800 600 0 3 0 (example_driver [21, 22, 23]) 51
    ⟨(), example_swap_chain, example_construction_calls⟩ rfl rfl rfl

theorem pool_resets_append (a b : List DriverCall) :
    pool_resets (a ++ b) = pool_resets a + pool_resets b := by
  induction a with
  | nil => simp [pool_resets]
  | cons c cs ih =>
    cases c <;> simp [pool_resets, ih]
    omega

/-- The pool resets of a run of successful acquisitions that return images in range. -/
theorem pool_resets_of_successes (n : Nat) (hn : 0 < n) (indices : List Nat) :
    ∀ s : RHI_SwapChain, s.m_present = true → s.m_buffer_count = n →
      n ≤ s.m_resource_view_acquiredSemaphore.length → s.m_image_index < n →
      (∀ i ∈ indices, i < n) →
      ∃ o, s.frame_calls (indices.map acquired) = some o ∧
        o.ret = List.replicate indices.length true ∧ pool_resets o.calls = 0 := by
  induction indices with
  | nil => intro s _ _ _ _ _; exact ⟨_, rfl, rfl, rfl⟩
  | cons i rest ih =>
    intro s hp hb he hidx hall
    obtain ⟨sem, hsem⟩ :=
      AcquireNextImage_presentable s ⟨true, some i⟩ hp (by omega) (by omega)
    obtain ⟨o, ho, hret, hres⟩ := ih
      { s with m_image_acquired := true, m_image_index := i } hp hb he
      (hall i (List.mem_cons_self i rest))
      (fun j hj => hall j (List.mem_cons_of_mem i hj))
    refine ⟨_, frame_calls_cons s (acquired i) (rest.map acquired) _ o hsem ho, ?_, ?_⟩
    · simp [hret, List.replicate_succ]
    · have hno : s.AcquireNextImage_reset = [] := by
        unfold RHI_SwapChain.AcquireNextImage_reset
        have := Nat.mod_le (s.m_image_index + 1) 4294967296
        rw [if_neg (by omega)]
      simp [pool_resets_append, hno, pool_resets, hres]

/-- C7, what the code does instead: on a presentable swap chain with
`buffer_count = n >= 1` whose stored image index is in `[0, n)`, a run of successful
acquisitions of any length to which the driver returns image indices in `[0, n)` is
defined, every call returns true, and the command pool is never reset. -/
theorem C7_pool_never_reset_in_range (s : RHI_SwapChain) (indices : List Nat)
    (hp : s.m_present = true) (hn : 1 ≤ s.m_buffer_count)
    (he : s.m_buffer_count ≤ s.m_resource_view_acquiredSemaphore.length)
    (hidx : s.m_image_index < s.m_buffer_count)
    (hall : ∀ i ∈ indices, i < s.m_buffer_count) :
    ∃ o, s.frame_calls (indices.map acquired) = some o ∧
      o.ret = List.replicate indices.length true ∧ pool_resets o.calls = 0 :=
  pool_resets_of_successes s.m_buffer_count hn indices s hp rfl he hidx hall

/-- C7 at the three-buffer chain: four consecutive successful acquisitions returning the
images 0, 1, 2, 0 reset the pool zero times. -/
theorem C7_pool_never_reset_in_range_witness :
    ∃ o, example_swap_chain.frame_calls ([0, 1, 2, 0].map acquired) = some o ∧
      o.ret = List.replicate [0, 1, 2, 0].length true ∧ pool_resets o.calls = 0 :=
  C7_pool_never_reset_in_range example_swap_chain [0, 1, 2, 0] (by decide) (by decide)
    (by decide) (by decide) (by decide)

open _Vulkan_SwapChain

/-- No call of `destroy` touches the command pool or the command lists. -/
theorem destroy_calls_not_command_pool (surface chain : Handle) (views sems : List Handle) :
    ∀ x ∈ (destroy surface chain views sems).calls, x.is_command_pool_or_list = false := by
  intro x hx
  simp only [destroy, List.mem_append, List.mem_map, List.mem_singleton] at hx
  rcases hx with ((⟨a, -, ha⟩ | hx) | hx) | hx
  · subst ha; rfl
  · subst hx; rfl
  · split at hx
    · simp only [List.mem_singleton] at hx
      subst hx; rfl
    · simp at hx
  · split at hx
    · simp only [List.mem_singleton] at hx
      subst hx; rfl
    · simp at hx

/-- C8: for a resolution the device accepts and that differs from the stored one,
`Resize` first issues the destruction of every entry of the semaphore array, of the image
views, of the swap chain and of the surface (the last two when they are not null), then
runs `_Vulkan_SwapChain::create`, the routine the constructor runs, with the new
dimensions, the stored buffer count, format, flags and window handle; it is defined
exactly when that creation is, returns the creation's result, which is also the new
`m_initialized`, keeps `m_cmd_pool` and `m_cmd_lists`, and none of its driver calls
creates or destroys the command pool or a command list. -/
theorem C8_resize_recreates (dev : RHI_Device) (s : RHI_SwapChain) (width height : Nat)
    (drv : CreateDriver) (hv : dev.ValidateResolution width height = true)
    (hd : ¬(s.m_width = width ∧ s.m_height = height)) :
    s.Resize dev width height drv =
      (create dev width height s.m_buffer_count s.m_format s.m_flags s.m_window_handle 0 0
        s.m_resource (image_view_destroy_result s.m_resource_view)
        (List.replicate s.m_resource_view_acquiredSemaphore.length 0) drv).map
      (fun c =>
        ⟨c.ret,
         { s with
             m_present := true
             m_initialized := c.ret
             m_width := c.width
             m_height := c.height
             m_surface := c.surface_out
             m_swap_chain_view := c.swap_chain_view_out
             m_resource := c.resource_textures
             m_resource_view := c.resource_views
             m_resource_view_acquiredSemaphore := c.resource_views_acquiredSemaphore },
         (s.m_resource_view_acquiredSemaphore.map DriverCall.semaphore_destroy ++
           [DriverCall.image_view_destroy s.m_resource_view] ++
           (if s.m_swap_chain_view ≠ 0 then
             [DriverCall.vkDestroySwapchainKHR s.m_swap_chain_view] else []) ++
           (if s.m_surface ≠ 0 then [DriverCall.vkDestroySurfaceKHR s.m_surface] else [])) ++
          c.calls⟩) ∧
    ∀ o, s.Resize dev width height drv = some o →
      o.ret = o.state.m_initialized ∧ o.state.m_cmd_pool = s.m_cmd_pool ∧
      o.state.m_cmd_lists = s.m_cmd_lists ∧
      ∀ x ∈ o.calls, x.is_command_pool_or_list = false := by
  have hR : s.Resize dev width height drv =
      (create dev width height s.m_buffer_count s.m_format s.m_flags s.m_window_handle 0 0
        s.m_resource (image_view_destroy_result s.m_resource_view)
        (List.replicate s.m_resource_view_acquiredSemaphore.length 0) drv).map
      (fun c =>
        ⟨c.ret,
         { s with
             m_present := true
             m_initialized := c.ret
             m_width := c.width
             m_height := c.height
             m_surface := c.surface_out
             m_swap_chain_view := c.swap_chain_view_out
             m_resource := c.resource_textures
             m_resource_view := c.resource_views
             m_resource_view_acquiredSemaphore := c.resource_views_acquiredSemaphore },
         (destroy s.m_surface s.m_swap_chain_view s.m_resource_view
            s.m_resource_view_acquiredSemaphore).calls ++ c.calls⟩) := by
    unfold RHI_SwapChain.Resize
    simp only [hv, Bool.not_true, Bool.false_eq_true, if_false, if_neg hd, destroy]
    cases create dev width height s.m_buffer_count s.m_format s.m_flags s.m_window_handle
      0 0 s.m_resource (image_view_destroy_result s.m_resource_view)
      (List.replicate s.m_resource_view_acquiredSemaphore.length 0) drv <;> rfl
  refine ⟨hR, ?_⟩
  intro o ho
  rw [hR] at ho
  cases hc : create dev width height s.m_buffer_count s.m_format s.m_flags s.m_window_handle
      0 0 s.m_resource (image_view_destroy_result s.m_resource_view)
      (List.replicate s.m_resource_view_acquiredSemaphore.length 0) drv with
  | none => rw [hc] at ho; exact absurd ho (by simp)
  | some c =>
    rw [hc] at ho
    simp only [Option.map_some', Option.some.injEq] at ho
    subst ho
    refine ⟨rfl, rfl, rfl, ?_⟩
    intro x hx
    rcases List.mem_append.mp hx with hx | hx
    · exact destroy_calls_not_command_pool _ _ _ _ x hx
    · exact create_calls_not_command_pool _ _ _ _ _ _ _ _ _ _ _ _ _ c hc x hx

/-- C8 at the three-buffer chain, resized from 800 x 600 to 1024 x 768. -/
theorem C8_resize_recreates_witness :
    (example_device.ValidateResolution 1024 768 = true ∧
      ¬(example_swap_chain.m_width = 1024 ∧ example_swap_chain.m_height = 768)) ∧
    ∀ o, example_swap_chain.Resize example_device 1024 768 (example_driver [21, 22, 23]) =
        some o →
      o.ret = o.state.m_initialized ∧ o.state.m_cmd_pool = example_swap_chain.m_cmd_pool ∧
      o.state.m_cmd_lists = example_swap_chain.m_cmd_lists ∧
      ∀ x ∈ o.calls, x.is_command_pool_or_list = false :=
  ⟨⟨by decide, by decide⟩,
   (C8_resize_recreates example_device example_swap_chain 1024 768
     (example_driver [21, 22, 23]) (by decide) (by decide)).2⟩

/-- C9: run on an object whose `m_initialized` is false, as the member initialisers
leave it, the constructor returns with the object untouched (so `m_initialized` is still
false, no handle is set, no parameter is copied, no command list is added) and without
any driver call whenever the device handle is null, or the device has no logical device,
or `ValidateResolution` rejects the requested resolution, or the window handle is null or
not a live window. When none of these holds, the constructor is defined exactly when
`_Vulkan_SwapChain::create` is, and `m_initialized` is the result of that creation. -/
theorem C9_constructor_guards (this : RHI_SwapChain) (window_handle : Handle)
    (is_window : Bool) (rhi_device : Option RHI_Device)
    (width height format buffer_count flags : Nat) (drv : CreateDriver) (cmd_pool : Handle)
    (h0 : this.m_initialized = false) :
    ((rhi_device = none ∨
        (∃ dev, rhi_device = some dev ∧
          (dev.device = 0 ∨ dev.ValidateResolution width height = false)) ∨
        window_handle = 0 ∨ is_window = false) →
      ∃ o, RHI_SwapChain.constructor this window_handle is_window rhi_device width height
          format buffer_count flags drv cmd_pool = some o ∧
        o.state = this ∧ o.calls = [] ∧ o.state.m_initialized = false) ∧
    (∀ dev, rhi_device = some dev → dev.device ≠ 0 →
      dev.ValidateResolution width height = true → window_handle ≠ 0 → is_window = true →
      ((RHI_SwapChain.constructor this window_handle is_window rhi_device width height
          format buffer_count flags drv cmd_pool).map (fun o => o.state.m_initialized)) =
      ((create dev width height buffer_count format flags window_handle this.m_surface
          this.m_swap_chain_view this.m_resource this.m_resource_view
          this.m_resource_view_acquiredSemaphore drv).map (fun c => c.ret))) := by
  constructor
  · intro h
    refine ⟨⟨(), this, []⟩, ?_, rfl, rfl, h0⟩
    unfold RHI_SwapChain.constructor
    cases rhi_device with
    | none => rfl
    | some dev =>
      simp only
      by_cases h1 : dev.device = 0
      · rw [if_pos h1]
      · rw [if_neg h1]
        cases h2 : dev.ValidateResolution width height
        · simp
        · by_cases h3 : window_handle = 0
          · simp [h3]
          · cases h4 : is_window
            · simp
            · rcases h with h | ⟨d, hd, h | h⟩ | h | h
              · exact absurd h (by simp)
              · simp only [Option.some.injEq] at hd
                subst hd
                exact absurd h h1
              · simp only [Option.some.injEq] at hd
                subst hd
                rw [h2] at h
                exact absurd h (by simp)
              · exact absurd h h3
              · rw [h4] at h
                exact absurd h (by simp)
  · intro dev hdev h1 h2 h3 h4
    subst hdev
    unfold RHI_SwapChain.constructor
    simp only [h1, h2, h3, h4, if_false, Bool.not_true, Bool.false_eq_true, Bool.or_false,
      decide_False]
    cases create dev width height buffer_count format flags window_handle this.m_surface
      this.m_swap_chain_view this.m_resource this.m_resource_view
      this.m_resource_view_acquiredSemaphore drv <;> rfl

/-- C9 at a null window handle, and at the construction of the three-buffer chain, both
on the object as the member initialisers leave it. -/
theorem C9_constructor_guards_witness :
    (RHI_SwapChain.member_initialisers 8).m_initialized = false ∧
    (∃ o, RHI_SwapChain.constructor (RHI_SwapChain.member_initialisers 8) 0 true
        (some example_device) 800 600 0 3 0 (example_driver [21, 22, 23]) 51 = some o ∧
      o.state = RHI_SwapChain.member_initialisers 8 ∧ o.calls = [] ∧
      o.state.m_initialized = false) ∧
    ((RHI_SwapChain.constructor (RHI_SwapChain.member_initialisers 8) 5 true
        (some example_device) 800 600 0 3 0 (example_driver [21, 22, 23]) 51).map
      (fun o => o.state.m_initialized)) =
     ((create example_device 800 600 3 0 0 5 0 0 (List.replicate 8 0) (List.replicate 8 0)
        (List.replicate 8 0) (example_driver [21, 22, 23])).map (fun c => c.ret)) :=
  ⟨rfl,
   (C9_constructor_guards (RHI_SwapChain.member_initialisers 8) 0 true (some example_device)
      800 600 0 3 0 (example_driver [21, 22, 23]) 51 rfl).1 (Or.inr (Or.inr (Or.inl rfl))),
   (C9_constructor_guards (RHI_SwapChain.member_initialisers 8) 5 true (some example_device)
      800 600 0 3 0 (example_driver [21, 22, 23]) 51 rfl).2 example_device rfl (by decide)
      (by decide) (by decide) rfl⟩

/-- C10: the destructor of a constant buffer issues exactly three driver operations, in
this order: the wait for the graphics queue to be idle, the destruction of the buffer,
the release of its memory. It has a single path, and every release it issues comes
after the wait. -/
theorem C10_destructor_waits_before_release (dev : RHI_Device) (s : RHI_ConstantBuffer) :
    s.destructor dev =
      [DriverCall.vkQueueWaitIdle dev.queue_graphics, DriverCall.buffer_destroy s.m_buffer,
       DriverCall.memory_free s.m_buffer_memory] ∧
    ∀ (i : Nat) (x : DriverCall), (s.destructor dev)[i]? = some x → x.is_release = true →
      ∃ j, j < i ∧
        (s.destructor dev)[j]? = some (DriverCall.vkQueueWaitIdle dev.queue_graphics) := by
  refine ⟨rfl, ?_⟩
  intro i x hx hrel
  cases i with
  | zero =>
    simp only [RHI_ConstantBuffer.destructor, List.getElem?_cons_zero, Option.some.injEq] at hx
    subst hx
    exact absurd hrel (by simp [DriverCall.is_release])
  | succ i => exact ⟨0, Nat.succ_pos i, rfl⟩

theorem filter_fst_of_map_eq (l : List (Handle × Nat)) (b : Handle)
    (h : l.map Prod.fst = [b]) : l.filter (fun x => x.1 != b) = [] := by
  match l, h with
  | [x], h =>
    simp only [List.map_cons, List.map_nil, List.cons.injEq, and_true] at h
    simp [h]

/-- C11, as stated, fails: on a resource with a valid device that holds nothing, `Create`
with size 64 succeeds and leaves one live pair; a following `Create` with size 128 whose
allocation the driver refuses (it returns false and leaves both handles null) releases
that pair and leaves no live buffer and no live memory at all. -/
theorem C11_failed_second_create_leaves_nothing :
    (example_constant_buffer.m_rhi_device.map (fun d => decide (d.device ≠ 0)) = some true ∧
      example_constant_buffer.owns ⟨[], []⟩) ∧
    (example_constant_buffer.Create 64 ⟨[], []⟩ ⟨true, 71, 72⟩).live = ⟨[(71, 64)], [72]⟩ ∧
    (example_constant_buffer.Create_twice ⟨[], []⟩ 64 ⟨true, 71, 72⟩ 128 ⟨false, 0, 0⟩).ret =
      false ∧
    (example_constant_buffer.Create_twice ⟨[], []⟩ 64 ⟨true, 71, 72⟩ 128 ⟨false, 0, 0⟩).live =
      ⟨[], []⟩ ∧
    (example_constant_buffer.Create_twice ⟨[], []⟩ 64 ⟨true, 71, 72⟩ 128 ⟨false, 0, 0⟩).calls =
      [DriverCall.buffer_destroy 0, DriverCall.memory_free 0, DriverCall.buffer_create 64,
       DriverCall.buffer_destroy 71, DriverCall.memory_free 72,
       DriverCall.buffer_create 128] := by
  refine ⟨⟨by decide, ⟨rfl, rfl⟩⟩, by decide, by decide, by decide, by decide⟩

/-- The loop of `SetLayout` within the array: one transition per slot, in order. -/
theorem SetLayout_loop_of_le (s : RHI_SwapChain) (cmd_buffer : Handle) (layout : Nat) :
    ∀ n, n ≤ s.m_resource.length →
      s.SetLayout_loop cmd_buffer layout n =
        some ((s.m_resource.take n).map
          (fun image => DriverCall.image_set_layout cmd_buffer image layout)) := by
  intro n
  induction n with
  | zero => intro _; rfl
  | succ n ih =>
    intro h
    have hn : n < s.m_resource.length := by omega
    rw [RHI_SwapChain.SetLayout_loop, ih (by omega), List.take_succ,
      List.getElem?_eq_getElem hn]
    simp only [Option.toList, List.map_append, List.map_cons, List.map_nil]

/-- The loop of `SetLayout` past the end of the array. -/
theorem SetLayout_loop_of_gt (s : RHI_SwapChain) (cmd_buffer : Handle) (layout : Nat) :
    ∀ n, s.m_resource.length < n → s.SetLayout_loop cmd_buffer layout n = none := by
  intro n
  induction n with
  | zero => intro h; omega
  | succ n ih =>
    intro h
    by_cases hn : s.m_resource.length < n
    · rw [RHI_SwapChain.SetLayout_loop, ih hn]
    · have hlen : s.m_resource.length ≤ n := by omega
      rw [RHI_SwapChain.SetLayout_loop]
      cases s.SetLayout_loop cmd_buffer layout n with
      | none => rfl
      | some calls => simp [List.getElem?_eq_none hlen]

/-- C12, as stated, fails: constructing with `buffer_count = 9` over arrays of eight
entries, the surface creation failing, leaves a swap chain with nine buffer slots, an
image array of eight entries and cached layout 0; on it `SetLayout(1, c)` with a
recording context reads `m_resource[8]`, outside the array, and has no defined
behaviour (without a context it only updates the cached layout). -/
theorem C12_more_slots_than_array_entries :
    (RHI_SwapChain.constructor (RHI_SwapChain.member_initialisers 8) 5 true
        (some example_device) 800 600 0 9 0
        { example_driver [] with surface_check := false } 51).map
      (fun o => (o.state.m_buffer_count, o.state.m_resource.length, o.state.m_layout,
        (o.state.SetLayout 1 (some 61)).isSome, (o.state.SetLayout 1 none).isSome)) =
    some (9, 8, 0, false, true) := by
  decide

/-- C12, amended: `SetLayout(L, c)` changes nothing and emits no command when `L` is the
cached layout. When `L` differs, `c` is supplied and the image array has at least
`buffer_count` entries, it emits exactly `buffer_count` layout transitions into `c`, for
the images of the slots `0 .. buffer_count - 1` in that order, and sets the cached layout
to `L`; when `L` differs and no context is supplied it only sets the cached layout; when
`L` differs, `c` is supplied and the image array has fewer entries than `buffer_count`,
the loop reads past the array and the call has no defined behaviour.
Whenever a call is defined, the same call made again right after it changes nothing and
emits nothing, so twice in a row emits the commands of once and ends in the state of
once. -/
theorem C12_set_layout (s : RHI_SwapChain) (layout : Nat) (command_list : Option Handle) :
    (s.m_layout = layout → s.SetLayout layout command_list = some ⟨(), s, []⟩) ∧
    (s.m_layout ≠ layout → ∀ cmd_buffer, command_list = some cmd_buffer →
      s.m_buffer_count ≤ s.m_resource.length →
      s.SetLayout layout command_list =
        some ⟨(), { s with m_layout := layout },
          (s.m_resource.take s.m_buffer_count).map
            (fun image => DriverCall.image_set_layout cmd_buffer image layout)⟩ ∧
      ((s.m_resource.take s.m_buffer_count).map
          (fun image => DriverCall.image_set_layout cmd_buffer image layout)).length =
        s.m_buffer_count) ∧
    (s.m_layout ≠ layout → command_list = none →
      s.SetLayout layout command_list = some ⟨(), { s with m_layout := layout }, []⟩) ∧
    (s.m_layout ≠ layout → command_list ≠ none →
      s.m_resource.length < s.m_buffer_count → s.SetLayout layout command_list = none) ∧
    (∀ o, s.SetLayout layout command_list = some o →
      o.state.m_layout = layout ∧
      o.state.SetLayout layout command_list = some ⟨(), o.state, []⟩) := by
  refine ⟨?_, ?_, ?_, ?_, ?_⟩
  · intro h
    simp [RHI_SwapChain.SetLayout, h]
  · intro h cmd_buffer hc he
    subst hc
    refine ⟨?_, by simp [he]⟩
    simp [RHI_SwapChain.SetLayout, h, SetLayout_loop_of_le s cmd_buffer layout _ he]
  · intro h hc
    subst hc
    simp [RHI_SwapChain.SetLayout, h]
  · intro h hc hlt
    cases command_list with
    | none => exact absurd rfl hc
    | some cmd_buffer =>
      simp [RHI_SwapChain.SetLayout, h, SetLayout_loop_of_gt s cmd_buffer layout _ hlt]
  · intro o ho
    have hl : o.state.m_layout = layout := by
      unfold RHI_SwapChain.SetLayout at ho
      split at ho
      · rename_i h
        simp only [Option.some.injEq] at ho
        subst ho
        exact h
      · split at ho
        · simp only [Option.some.injEq] at ho
          subst ho
          rfl
        · split at ho
          · exact absurd ho (by simp)
          · simp only [Option.some.injEq] at ho
            subst ho
            rfl
    exact ⟨hl, by simp [RHI_SwapChain.SetLayout, hl]⟩

/-- C12, amended, at the three-buffer chain (cached layout 0), layout 1 and the command
buffer 61. -/
theorem C12_set_layout_witness :
    example_swap_chain.SetLayout 1 (some 61) =
      some ⟨(), { example_swap_chain with m_layout := 1 },
        (example_swap_chain.m_resource.take example_swap_chain.m_buffer_count).map
          (fun image => DriverCall.image_set_layout 61 image 1)⟩ ∧
    ((example_swap_chain.m_resource.take example_swap_chain.m_buffer_count).map
        (fun image => DriverCall.image_set_layout 61 image 1)).length =
      example_swap_chain.m_buffer_count :=
  (C12_set_layout example_swap_chain 1 (some 61)).2.1 (by decide) 61 rfl (by decide)

/-- The function `create` leaves the surface and the swap chain it was given when it
fails. -/
theorem create_failure (ctx : RHI_Device)
    (width height buffer_count format flags : Nat) (window surface chain : Handle)
    (tex views sems : List Handle) (drv : CreateDriver) (c : CreateResult)
    (h : create ctx width height buffer_count format flags window surface chain tex views
      sems drv = some c) (hret : c.ret = false) :
    c.surface_out = surface ∧ c.swap_chain_view_out = chain := by
  unfold create at h
  simp only at h
  split at h
  · simp only [Option.some.injEq] at h
    subst h
    exact ⟨rfl, rfl⟩
  · split at h
    · simp only [Option.some.injEq] at h
      subst h
      exact ⟨rfl, rfl⟩
    · split at h
      · simp only [Option.some.injEq] at h
        subst h
        exact ⟨rfl, rfl⟩
      · split at h
        · exact absurd h (by simp)
        · split at h
          · simp only [Option.some.injEq] at h
            subst h
            exact ⟨rfl, rfl⟩
          · split at h
            · exact absurd h (by simp)
            · simp only [Option.some.injEq] at h
              subst h
              exact absurd hret (by simp)

/-- The method `Resize` on a valid resolution that differs from the stored one, in terms
of the creation it runs. -/
theorem Resize_of_create (dev : RHI_Device) (s : RHI_SwapChain) (width height : Nat)
    (drv : CreateDriver) (c : CreateResult)
    (hv : dev.ValidateResolution width height = true)
    (hd : ¬(s.m_width = width ∧ s.m_height = height))
    (hc : create dev width height s.m_buffer_count s.m_format s.m_flags s.m_window_handle
      0 0 s.m_resource (image_view_destroy_result s.m_resource_view)
      (List.replicate s.m_resource_view_acquiredSemaphore.length 0) drv = some c) :
    s.Resize dev width height drv =
      some ⟨c.ret,
        { s with
            m_present := true
            m_initialized := c.ret
            m_width := c.width
            m_height := c.height
            m_surface := c.surface_out
            m_swap_chain_view := c.swap_chain_view_out
            m_resource := c.resource_textures
            m_resource_view := c.resource_views
            m_resource_view_acquiredSemaphore := c.resource_views_acquiredSemaphore },
        (s.m_resource_view_acquiredSemaphore.map DriverCall.semaphore_destroy ++
          [DriverCall.image_view_destroy s.m_resource_view] ++
          (if s.m_swap_chain_view ≠ 0 then
            [DriverCall.vkDestroySwapchainKHR s.m_swap_chain_view] else []) ++
          (if s.m_surface ≠ 0 then [DriverCall.vkDestroySurfaceKHR s.m_surface] else [])) ++
        c.calls⟩ := by
  unfold RHI_SwapChain.Resize
  simp only [hv, Bool.not_true, Bool.false_eq_true, if_false, if_neg hd, destroy, hc]

/-- C13: for every swap chain state and every resolution the device accepts that differs
from the stored one, if the creation that `Resize` runs fails and hands back the width
and height it was given, then `Resize` returns false after issuing the destruction of
the old semaphores, views, swap chain and surface, and leaves the object with the new
dimensions stored, a null surface and swap chain, `m_initialized` false and `m_present`
true; `Resize` with the same resolution called again right away, whatever the driver
would answer, returns true without any driver call and leaves that object as it is. -/
theorem C13_failed_resize_is_not_retried (dev : RHI_Device) (s : RHI_SwapChain)
    (width height : Nat) (drv drv2 : CreateDriver) (c : CreateResult)
    (hv : dev.ValidateResolution width height = true)
    (hd : ¬(s.m_width = width ∧ s.m_height = height))
    (hc : create dev width height s.m_buffer_count s.m_format s.m_flags s.m_window_handle
      0 0 s.m_resource (image_view_destroy_result s.m_resource_view)
      (List.replicate s.m_resource_view_acquiredSemaphore.length 0) drv = some c)
    (hf : c.ret = false) (hw : c.width = width) (hh : c.height = height) :
    ∃ o, s.Resize dev width height drv = some o ∧ o.ret = false ∧
      o.state.m_width = width ∧ o.state.m_height = height ∧
      o.state.m_surface = 0 ∧ o.state.m_swap_chain_view = 0 ∧
      o.state.m_initialized = false ∧ o.state.m_present = true ∧
      o.calls =
        (s.m_resource_view_acquiredSemaphore.map DriverCall.semaphore_destroy ++
          [DriverCall.image_view_destroy s.m_resource_view] ++
          (if s.m_swap_chain_view ≠ 0 then
            [DriverCall.vkDestroySwapchainKHR s.m_swap_chain_view] else []) ++
          (if s.m_surface ≠ 0 then [DriverCall.vkDestroySurfaceKHR s.m_surface] else [])) ++
        c.calls ∧
      o.state.Resize dev width height drv2 = some ⟨true, o.state, []⟩ := by
  obtain ⟨hs, hch⟩ := create_failure _ _ _ _ _ _ _ _ _ _ _ _ _ c hc hf
  refine ⟨_, Resize_of_create dev s width height drv c hv hd hc, hf, hw, hh, hs, hch, hf,
    rfl, rfl, ?_⟩
  simp [RHI_SwapChain.Resize, hv, hw, hh]

/-- C13 at the three-buffer chain, resized to 1024 x 768 while the driver refuses to
create the surface. -/
theorem C13_failed_resize_is_not_retried_witness :
    ∃ o, example_swap_chain.Resize example_device 1024 768
        { example_driver [] with surface_check := false } = some o ∧ o.ret = false ∧
      o.state.m_width = 1024 ∧ o.state.m_height = 768 ∧
      o.state.m_surface = 0 ∧ o.state.m_swap_chain_view = 0 ∧
      o.state.m_initialized = false ∧ o.state.m_present = true ∧
      o.calls =
        (example_swap_chain.m_resource_view_acquiredSemaphore.map
            DriverCall.semaphore_destroy ++
          [DriverCall.image_view_destroy example_swap_chain.m_resource_view] ++
          (if example_swap_chain.m_swap_chain_view ≠ 0 then
            [DriverCall.vkDestroySwapchainKHR example_swap_chain.m_swap_chain_view]
            else []) ++
          (if example_swap_chain.m_surface ≠ 0 then
            [DriverCall.vkDestroySurfaceKHR example_swap_chain.m_surface] else [])) ++
        [DriverCall.vkCreateWin32SurfaceKHR 5] ∧
      o.state.Resize example_device 1024 768 (example_driver [21, 22, 23]) =
        some ⟨true, o.state, []⟩ :=
  C13_failed_resize_is_not_retried example_device example_swap_chain 1024 768
    { example_driver [] with surface_check := false } (example_driver [21, 22, 23])
    ⟨false, 1024, 768, 0, 0, example_swap_chain.m_resource,
      image_view_destroy_result example_swap_chain.m_resource_view,
      List.replicate example_swap_chain.m_resource_view_acquiredSemaphore.length 0,
      [DriverCall.vkCreateWin32SurfaceKHR 5]⟩
    (by decide) (by decide) rfl rfl rfl rfl

/-- C14: for every swap chain with `buffer_count >= 1`, whatever image index is stored
(also one that is `buffer_count` or more) and whether or not an image is acquired, the
semaphore slot that `AcquireNextImage` computes is defined and strictly less than
`buffer_count`; the computation is undefined exactly when `buffer_count = 0` and an
image has been acquired; and after every successful `create` with that `buffer_count`
the slot computed addresses a semaphore that this creation stored, the one made for
that slot. -/
theorem C14_slot_below_buffer_count :
    (∀ s : RHI_SwapChain, 1 ≤ s.m_buffer_count →
      ∃ i, s.AcquireNextImage_index = some i ∧ i < s.m_buffer_count) ∧
    (∀ s : RHI_SwapChain, s.AcquireNextImage_index = none ↔
      (s.m_buffer_count = 0 ∧ s.m_image_acquired = true)) ∧
    (∀ (ctx : RHI_Device) (width height buffer_count format flags : Nat)
       (window surface chain : Handle) (tex views sems : List Handle) (drv : CreateDriver)
       (c : CreateResult) (s : RHI_SwapChain),
      create ctx width height buffer_count format flags window surface chain tex views sems
        drv = some c →
      c.ret = true → s.m_buffer_count = buffer_count → 1 ≤ buffer_count →
      ∃ i, s.AcquireNextImage_index = some i ∧ i < buffer_count ∧
        c.resource_views_acquiredSemaphore[i]? = some (drv.semaphore_create i)) := by
  have hlt : ∀ s : RHI_SwapChain, 1 ≤ s.m_buffer_count →
      ∃ i, s.AcquireNextImage_index = some i ∧ i < s.m_buffer_count := by
    intro s h
    unfold RHI_SwapChain.AcquireNextImage_index
    cases s.m_image_acquired
    · exact ⟨0, by simp, by omega⟩
    · have hne : s.m_buffer_count ≠ 0 := by omega
      exact ⟨(s.m_image_index + 1) % 4294967296 % s.m_buffer_count, by simp [hne],
        Nat.mod_lt _ (by omega)⟩
  refine ⟨hlt, ?_, ?_⟩
  · intro s
    unfold RHI_SwapChain.AcquireNextImage_index
    cases s.m_image_acquired
    · simp
    · by_cases h0 : s.m_buffer_count = 0 <;> simp [h0]
  · intro ctx width height buffer_count format flags window surface chain tex views sems
      drv c s hc hret hb hn
    obtain ⟨i, hi, hilt⟩ := hlt s (by omega)
    rw [hb] at hilt
    exact ⟨i, hi, hilt,
      (create_success _ _ _ _ _ _ _ _ _ _ _ _ _ c hc hret).2.2.2.2 i hilt⟩

/-- C14 at the creation of the three-buffer chain: the slot computed on
`example_swap_chain` addresses one of the three semaphores that creation stored. -/
theorem C14_slot_below_buffer_count_witness :
    ∃ i, example_swap_chain.AcquireNextImage_index = some i ∧ i < 3 ∧
      example_swap_chain.m_resource_view_acquiredSemaphore[i]? =
        some ((example_driver [21, 22, 23]).semaphore_create i) :=
  C14_slot_below_buffer_count.2.2 example_device 800 600 3 0 0 5 0 0
    (List.replicate 8 0) (List.replicate 8 0) (List.replicate 8 0)
    (example_driver [21, 22, 23])
    ⟨true, 800, 600, 11, 12, example_swap_chain.m_resource,
      example_swap_chain.m_resource_view,
      example_swap_chain.m_resource_view_acquiredSemaphore,
      example_construction_calls.take 17⟩
    example_swap_chain rfl rfl rfl (by decide)

/-- What `buffer::destroy` followed by `memory::free` leaves live. -/
theorem free_destroy_eq_without (live : DeviceAllocations) (buffer memory : Handle) :
    (vulkan_common.memory.free (vulkan_common.buffer.destroy live buffer).1 memory).1 =
      live.without buffer memory := by
  unfold vulkan_common.memory.free vulkan_common.buffer.destroy DeviceAllocations.without
  by_cases hb : buffer = 0 <;> by_cases hm : memory = 0
  · simp [hb, hm]
  · have hm1 : (memory == 0) = false := by simpa using hm
    simp [hb, hm, hm1]
  · have hb1 : (buffer == 0) = false := by simpa using hb
    simp [hb, hm, hb1]
  · have hm1 : (memory == 0) = false := by simpa using hm
    have hb1 : (buffer == 0) = false := by simpa using hb
    simp [hb, hm, hb1, hm1]

/-- The objects a creation has made are released by the destruction of its handles. -/
theorem without_created (live : DeviceAllocations) (size : Nat) (r : BufferCreateResponse) :
    (vulkan_common.buffer.create live size r).1.without r.buffer r.buffer_memory =
      live.without r.buffer r.buffer_memory := by
  unfold vulkan_common.buffer.create DeviceAllocations.without
  by_cases hb : r.buffer = 0 <;> by_cases hm : r.buffer_memory = 0
  · simp [hb, hm]
  · have hm1 : (r.buffer_memory == 0) = false := by simpa using hm
    simp [hb, hm, hm1, List.filter_append]
  · have hb1 : (r.buffer == 0) = false := by simpa using hb
    simp [hb, hm, hb1, List.filter_append]
  · have hm1 : (r.buffer_memory == 0) = false := by simpa using hm
    have hb1 : (r.buffer == 0) = false := by simpa using hb
    simp [hb, hm, hb1, hm1, List.filter_append]

/-- One `_Create` with a valid device, on any live objects. -/
theorem _Create_of_valid (s : RHI_ConstantBuffer) (live : DeviceAllocations)
    (r : BufferCreateResponse) (dev : RHI_Device) (hdev : s.m_rhi_device = some dev)
    (hvalid : dev.device ≠ 0) :
    s._Create live r =
      ⟨r.ret, { s with m_buffer := r.buffer, m_buffer_memory := r.buffer_memory },
       (vulkan_common.buffer.create (live.without s.m_buffer s.m_buffer_memory) s.m_size r).1,
       [DriverCall.buffer_destroy s.m_buffer, DriverCall.memory_free s.m_buffer_memory,
        DriverCall.buffer_create s.m_size]⟩ := by
  unfold RHI_ConstantBuffer._Create
  simp only [hdev, if_neg hvalid, free_destroy_eq_without]
  rfl

/-- A resource that owns the live objects leaves none when its handles are released. -/
theorem without_of_owns (s : RHI_ConstantBuffer) (live : DeviceAllocations)
    (hown : s.owns live) : live.without s.m_buffer s.m_buffer_memory = ⟨[], []⟩ := by
  obtain ⟨hb, hm⟩ := hown
  unfold DeviceAllocations.without
  have h1 : live.buffers.filter (fun b => s.m_buffer == 0 || b.1 != s.m_buffer) = [] := by
    by_cases h0 : s.m_buffer = 0
    · simp only [h0, if_true] at hb
      rw [List.map_eq_nil_iff.mp hb]; rfl
    · simp only [h0, if_false] at hb
      have := filter_fst_of_map_eq _ _ hb
      simpa [h0] using this
  have h2 : live.memory.filter (fun m => s.m_buffer_memory == 0 || m != s.m_buffer_memory)
      = [] := by
    by_cases h0 : s.m_buffer_memory = 0
    · simp only [h0, if_true] at hm
      rw [hm]; rfl
    · simp only [h0, if_false] at hm
      rw [hm]
      simp [h0]
  rw [h1, h2]

/-- C11, amended: for every constant buffer resource with a valid device, whatever else
is live on the device, and every two sizes (equal or not), `Create` with the first size
followed by `Create` with the second issues, in every case, the destruction of the
handles the resource held, the first allocation, the destruction of the buffer and the
memory the first allocation left, and only then the second allocation; it returns what
the second allocation returned, so false when that fails. The objects live afterwards
are the ones that were live before and are neither behind the handles the resource held
nor behind the ones the first allocation left, followed by what the second allocation
made: when it succeeds with two handles that are not null, exactly one buffer, of the
second size, and one memory allocation are live in addition to those other objects, and
they are the only live objects when the resource owned all that was live before. -/
theorem C11_second_create_replaces_first (s : RHI_ConstantBuffer) (live : DeviceAllocations)
    (dev : RHI_Device) (size1 size2 : Nat) (r1 r2 : BufferCreateResponse)
    (hdev : s.m_rhi_device = some dev) (hvalid : dev.device ≠ 0) :
    (s.Create_twice live size1 r1 size2 r2).calls =
      [DriverCall.buffer_destroy s.m_buffer, DriverCall.memory_free s.m_buffer_memory,
       DriverCall.buffer_create size1,
       DriverCall.buffer_destroy r1.buffer, DriverCall.memory_free r1.buffer_memory,
       DriverCall.buffer_create size2] ∧
    (s.Create_twice live size1 r1 size2 r2).ret = r2.ret ∧
    (s.Create_twice live size1 r1 size2 r2).state =
      { s with m_size := size2, m_buffer := r2.buffer, m_buffer_memory := r2.buffer_memory } ∧
    (s.Create_twice live size1 r1 size2 r2).live =
      ⟨((live.without s.m_buffer s.m_buffer_memory).without r1.buffer
            r1.buffer_memory).buffers ++
          (if r2.buffer = 0 then [] else [(r2.buffer, size2)]),
        ((live.without s.m_buffer s.m_buffer_memory).without r1.buffer
            r1.buffer_memory).memory ++
          (if r2.buffer_memory = 0 then [] else [r2.buffer_memory])⟩ ∧
    (r2.ret = true → r2.buffer ≠ 0 → r2.buffer_memory ≠ 0 →
      (s.Create_twice live size1 r1 size2 r2).ret = true ∧
      (s.Create_twice live size1 r1 size2 r2).live =
        ⟨((live.without s.m_buffer s.m_buffer_memory).without r1.buffer
              r1.buffer_memory).buffers ++ [(r2.buffer, size2)],
          ((live.without s.m_buffer s.m_buffer_memory).without r1.buffer
              r1.buffer_memory).memory ++ [r2.buffer_memory]⟩) ∧
    (r2.ret = false → (s.Create_twice live size1 r1 size2 r2).ret = false) ∧
    (s.owns live → r2.ret = true → r2.buffer ≠ 0 → r2.buffer_memory ≠ 0 →
      (s.Create_twice live size1 r1 size2 r2).live =
        ⟨[(r2.buffer, size2)], [r2.buffer_memory]⟩) := by
  have h1 := _Create_of_valid { s with m_size := size1 } live r1 dev hdev hvalid
  have h2 := _Create_of_valid
    { ({ s with m_size := size1 } : RHI_ConstantBuffer) with
        m_buffer := r1.buffer, m_buffer_memory := r1.buffer_memory, m_size := size2 }
    (vulkan_common.buffer.create (live.without s.m_buffer s.m_buffer_memory) size1 r1).1
    r2 dev hdev hvalid
  have hT : s.Create_twice live size1 r1 size2 r2 =
      ⟨r2.ret,
       { s with m_size := size2, m_buffer := r2.buffer, m_buffer_memory := r2.buffer_memory },
       ⟨((live.without s.m_buffer s.m_buffer_memory).without r1.buffer
            r1.buffer_memory).buffers ++
          (if r2.buffer = 0 then [] else [(r2.buffer, size2)]),
        ((live.without s.m_buffer s.m_buffer_memory).without r1.buffer
            r1.buffer_memory).memory ++
          (if r2.buffer_memory = 0 then [] else [r2.buffer_memory])⟩,
       [DriverCall.buffer_destroy s.m_buffer, DriverCall.memory_free s.m_buffer_memory,
        DriverCall.buffer_create size1,
        DriverCall.buffer_destroy r1.buffer, DriverCall.memory_free r1.buffer_memory,
        DriverCall.buffer_create size2]⟩ := by
    simp only [RHI_ConstantBuffer.Create_twice, RHI_ConstantBuffer.Create]
    rw [h1]
    simp only
    rw [h2]
    simp only [without_created]
    rfl
  clear h1 h2
  rw [hT]
  refine ⟨rfl, rfl, rfl, rfl, ?_, ?_, ?_⟩
  · intro hok hb hm
    exact ⟨hok, by simp [hb, hm]⟩
  · intro hf
    exact hf
  · intro hown _ hb hm
    rw [without_of_owns s live hown]
    simp [DeviceAllocations.without, hb, hm]

/-- C11, amended, at the resource that holds nothing, on a device where a buffer of
size 16 and its memory are live for another owner, with sizes 64 and 128 and two
allocations that succeed: the other owner's objects and the second pair are live at the
end, the first pair is not. -/
theorem C11_second_create_replaces_first_witness :
    (example_constant_buffer.Create_twice ⟨[(90, 16)], [91]⟩ 64 ⟨true, 71, 72⟩ 128
        ⟨true, 73, 74⟩).calls =
      [DriverCall.buffer_destroy 0, DriverCall.memory_free 0, DriverCall.buffer_create 64,
       DriverCall.buffer_destroy 71, DriverCall.memory_free 72,
       DriverCall.buffer_create 128] ∧
    (example_constant_buffer.Create_twice ⟨[(90, 16)], [91]⟩ 64 ⟨true, 71, 72⟩ 128
        ⟨true, 73, 74⟩).ret = true ∧
    (example_constant_buffer.Create_twice ⟨[(90, 16)], [91]⟩ 64 ⟨true, 71, 72⟩ 128
        ⟨true, 73, 74⟩).live = ⟨[(90, 16), (73, 128)], [91, 74]⟩ :=
  ⟨(C11_second_create_replaces_first example_constant_buffer ⟨[(90, 16)], [91]⟩
      example_device 64 128 ⟨true, 71, 72⟩ ⟨true, 73, 74⟩ rfl (by decide)).1,
   (C11_second_create_replaces_first example_constant_buffer ⟨[(90, 16)], [91]⟩
      example_device 64 128 ⟨true, 71, 72⟩ ⟨true, 73, 74⟩ rfl (by decide)).2.2.2.2.1
      rfl (by decide) (by decide)⟩

end Spartan
